import Mathlib

/-!
# OTA lifecycle state machine of ESP32_IDF_OTA_demo

Shallow embedding of `main/main_app.c` (edge ISR, the three task loop bodies,
`gpio_init`, `gpio_toggle`, `peripherals_safe_outputs`) and of `main/ota_hal.c`
(`ota_hal_init`, `ota_hal_start`, `ota_hal_mark_app_valid_if_needed`,
`strip_newline`).

* The C globals (`system_state`, `toogle_led`, `gpio_evt_queue`, `s_inited`,
  `s_netif_sta`) are fields of `World`, next to the part of the driver state the
  code acts on (button line configuration, registered handler, output level,
  validation mark of the running image).
* Two ghost fields record what happened: `hist` receives every value assigned to
  `system_state`, `calls` receives the collaborator calls in program order.
* Results of ESP-IDF / FreeRTOS calls that the code inspects are supplied per
  step by a `Platform` record; build-time `CONFIG_*` macros are a `Kconfig`.
* One loop body is one atomic step returning an `Outcome`: the step returned,
  the device restarted, or the fatal-error handler was entered.
-/

namespace OtaDemo

/-! ## Platform types and constants -/

/-- ESP-IDF error code (`esp_err_t` is a C `int`). -/
abbrev esp_err_t := Int

def ESP_OK : esp_err_t := 0
def ESP_FAIL : esp_err_t := -1
def ESP_ERR_INVALID_ARG : esp_err_t := 0x102
def ESP_ERR_INVALID_STATE : esp_err_t := 0x103

/-- Lifecycle state, `sys_state_t` of main_app.c. -/
inductive sys_state_t where
  | SYS_RUN
  | SYS_OTA_REQUESTED
  | SYS_OTA_PREPARE
  | SYS_OTA_RUNNING
  | SYS_OTA_FAILED
deriving DecidableEq, Repr

/-- Interrupt trigger types of the GPIO driver that the program uses. -/
inductive gpio_int_type_t where
  | GPIO_INTR_DISABLE
  | GPIO_INTR_POSEDGE
  | GPIO_INTR_NEGEDGE
  | GPIO_INTR_ANYEDGE
deriving DecidableEq, Repr

inductive gpio_mode_t where
  | GPIO_MODE_DISABLE
  | GPIO_MODE_INPUT
  | GPIO_MODE_OUTPUT
deriving DecidableEq, Repr

/-- The fields of `gpio_config_t` that `gpio_init` fills in. -/
structure gpio_config_t where
  pin_bit_mask : Nat
  mode : gpio_mode_t
  pull_up_en : Bool
  pull_down_en : Bool
  intr_type : gpio_int_type_t
deriving DecidableEq, Repr

/-- Image states of the update subsystem (`esp_ota_img_states_t`). -/
inductive esp_ota_img_states_t where
  | ESP_OTA_IMG_NEW
  | ESP_OTA_IMG_PENDING_VERIFY
  | ESP_OTA_IMG_VALID
  | ESP_OTA_IMG_INVALID
  | ESP_OTA_IMG_ABORTED
  | ESP_OTA_IMG_UNDEFINED
deriving DecidableEq, Repr

/-- OTA HAL configuration record, `ota_hal_cfg_t` of ota_hal.h; a NULL `url` is `none`. -/
structure ota_hal_cfg_t where
  url : Option String
  keep_alive : Bool
  skip_cn_check : Bool
deriving DecidableEq, Repr

/-- The `esp_http_client_config_t` fields that `ota_hal_start` sets. -/
structure esp_http_client_config_t where
  url : Option String
  keep_alive_enable : Bool
  buffer_size_tx : Nat
  buffer_size : Nat
  timeout_ms : Nat
  if_name : Option String
  crt_bundle_attach : Bool
  cert_pem : Bool
  skip_cert_common_name_check : Bool
deriving DecidableEq, Repr

/-- Build-time configuration: the `CONFIG_*` macros of sdkconfig.h read by the
sources, the `ota_cfg` table of ota_hal.h, and the chip's mask of pins usable
as outputs. -/
structure Kconfig where
  GPIO_BTN_PIN : Nat
  GPIO_OUT_PIN : Nat
  GPIO_BTN_INTR_NEGEDGE : Bool
  GPIO_BTN_INTR_POSEDGE : Bool
  GPIO_BTN_PULLUP : Bool
  GPIO_BTN_PULLDOWN : Bool
  EXAMPLE_FIRMWARE_UPGRADE_URL_FROM_STDIN : Bool
  EXAMPLE_FIRMWARE_UPGRADE_BIND_IF : Bool
  USE_CERT_BUNDLE : Bool
  EXAMPLE_SKIP_COMMON_NAME_CHECK : Bool
  ota_cfg : ota_hal_cfg_t
  SOC_GPIO_VALID_OUTPUT_GPIO_MASK : Nat
deriving DecidableEq, Repr

/-- Results of the platform calls whose outcome the code inspects, for one step. -/
structure Platform where
  gpio_get_level : Nat → Int
  /-- Whether `xQueueCreate` finds the memory for a queue. -/
  xQueueCreate : Bool
  fgets : Option String
  esp_https_ota : esp_err_t
  gpio_install_isr_service : esp_err_t
  gpio_isr_handler_add : esp_err_t
  esp_ota_get_state_partition : esp_err_t
  esp_ota_mark_app_valid_cancel_rollback : esp_err_t

/-- FreeRTOS queue of `uint32_t` items: pending items, head first, and the
length fixed at creation. -/
structure Queue where
  items : List Nat
  uxQueueLength : Nat
deriving DecidableEq, Repr

/-- Collaborator calls recorded in program order. -/
inductive Call where
  | peripherals_safe_outputs
  | ota_hal_start
  | esp_https_ota (http_cfg : esp_http_client_config_t)
  | esp_restart
  | esp_ota_mark_app_valid_cancel_rollback
deriving DecidableEq, Repr

/-- Program globals, driver state the program acts on, and the two ghost logs. -/
structure World where
  /-- `sys_state_t system_state` (main_app.c). -/
  system_state : sys_state_t
  /-- `bool toogle_led` (main_app.c). -/
  toogle_led : Bool
  /-- `static QueueHandle_t gpio_evt_queue`; `none` is NULL. -/
  gpio_evt_queue : Option Queue
  /-- `static bool s_inited` (ota_hal.c). -/
  s_inited : Bool
  /-- `static esp_netif_t *s_netif_sta` (wifi.c), as the interface name; `none` is NULL. -/
  s_netif_sta : Option String
  /-- Driver: level driven on the output line. -/
  out_level : Nat
  /-- Driver: configuration last applied to the output line. -/
  out_conf : gpio_config_t
  /-- Driver: configuration of the button line (its `intr_type` is the active trigger). -/
  btn_conf : gpio_config_t
  /-- Driver: argument of the handler registered on the button line, if any. -/
  btn_isr_handler : Option Nat
  /-- Driver: the per-pin ISR service is installed. -/
  isr_service : Bool
  /-- Update subsystem: the running partition (`none` is NULL). -/
  running_partition : Option Nat
  /-- Update subsystem: validation mark of the running image. -/
  ota_state : esp_ota_img_states_t
  /-- Ghost: every value assigned to `system_state`, oldest first. -/
  hist : List sys_state_t
  /-- Ghost: collaborator calls, oldest first. -/
  calls : List Call
deriving DecidableEq, Repr

/-- Result of one atomic step. -/
inductive Outcome where
  /-- The step returned; execution continues from this world. -/
  | cont (w : World)
  /-- The step called `esp_restart`: the device resets. -/
  | restart (w : World)
  /-- The step entered the fatal-error handler (`abort`). -/
  | abort (w : World)
deriving DecidableEq, Repr

/-- The world in which a step ended. -/
def Outcome.world : Outcome → World
  | .cont w => w
  | .restart w => w
  | .abort w => w

/-- Assignment `system_state = s`, recorded in `hist`. -/
def set_system_state (w : World) (s : sys_state_t) : World :=
  { w with system_state := s, hist := w.hist ++ [s] }

/-- Append a collaborator call to the ghost log. -/
def record (w : World) (c : Call) : World :=
  { w with calls := w.calls ++ [c] }

/-- Modelled from the spec: the ESP-IDF macro `ESP_ERROR_CHECK` is not part of
the sources. A result other than `ESP_OK` is propagated to the platform's
fatal-error handler (the device halts or reboots through the platform's fault
path); on `ESP_OK` the statement that follows runs. -/
def ESP_ERROR_CHECK (err : esp_err_t) (w : World) (k : World → Outcome) : Outcome :=
  if err = ESP_OK then k w else Outcome.abort w

/-! ## FreeRTOS queue and GPIO driver (platform model) -/

/-- FreeRTOS `xQueueCreate`: a fresh empty queue of the given length, or NULL
(`none`) when the memory for it cannot be allocated. -/
def xQueueCreate (allocated : Bool) (uxQueueLength : Nat) : Option Queue :=
  if allocated then some { items := [], uxQueueLength := uxQueueLength } else none

/-- FreeRTOS `xQueueSendFromISR`: never blocks; the item is appended when there
is room and dropped when the queue is full. -/
def xQueueSendFromISR (q : Queue) (item : Nat) : Queue :=
  if q.items.length < q.uxQueueLength then { q with items := q.items ++ [item] } else q

/-- FreeRTOS `xQueueReceive` with `portMAX_DELAY`: the head item and the rest of
the queue, or `none` while the queue is empty (the caller stays blocked). -/
def xQueueReceive (q : Queue) : Option (Nat × Queue) :=
  match q.items with
  | [] => none
  | x :: rest => some (x, { q with items := rest })

/-- Driver `GPIO_IS_VALID_OUTPUT_GPIO`. -/
def GPIO_IS_VALID_OUTPUT_GPIO (c : Kconfig) (gpio_num : Nat) : Bool :=
  c.SOC_GPIO_VALID_OUTPUT_GPIO_MASK.testBit gpio_num

/-- Driver `gpio_set_level` on the output line: `ESP_ERR_INVALID_ARG` for a pin
that cannot be an output, otherwise the level is driven. -/
def gpio_set_level (c : Kconfig) (gpio_num : Nat) (level : Nat) (w : World) : esp_err_t × World :=
  if GPIO_IS_VALID_OUTPUT_GPIO c gpio_num then (ESP_OK, { w with out_level := level })
  else (ESP_ERR_INVALID_ARG, w)

/-- Driver `gpio_set_intr_type` on the button line. -/
def gpio_set_intr_type (intr_type : gpio_int_type_t) (w : World) : World :=
  { w with btn_conf := { w.btn_conf with intr_type := intr_type } }

/-- Driver `gpio_isr_handler_remove` on the button line. -/
def gpio_isr_handler_remove (w : World) : World :=
  { w with btn_isr_handler := none }

/-- Whether a trigger type selects an edge of the given direction. -/
def intr_selects : gpio_int_type_t → Bool → Bool
  | .GPIO_INTR_DISABLE, _ => false
  | .GPIO_INTR_POSEDGE, rising => rising
  | .GPIO_INTR_NEGEDGE, rising => !rising
  | .GPIO_INTR_ANYEDGE, _ => true

/-! ## main_app.c -/

/-- `gpio_isr_handler`: enqueue the pin number, never block. A NULL queue handle
fails the `configASSERT` of the queue API. -/
def gpio_isr_handler (arg : Nat) (w : World) : Outcome :=
  let gpio_num := arg % 2 ^ 32
  match w.gpio_evt_queue with
  | none => Outcome.abort w
  | some q => Outcome.cont { w with gpio_evt_queue := some (xQueueSendFromISR q gpio_num) }

/-- Driver dispatch of a physical edge on the button line: the handler
registered on the line runs when the active trigger type selects the edge
direction. -/
def gpio_edge (rising : Bool) (w : World) : Outcome :=
  match w.btn_isr_handler with
  | none => Outcome.cont w
  | some arg =>
    if intr_selects w.btn_conf.intr_type rising then gpio_isr_handler arg w
    else Outcome.cont w

/-- One pass of the `while (true)` body of `Task_per`. With the state at
`SYS_RUN` and the queue empty the task stays blocked in `xQueueReceive`
(`portMAX_DELAY`), which leaves the world as it is. -/
def Task_per (p : Platform) (w : World) : Outcome :=
  if w.system_state = sys_state_t.SYS_RUN then
    match w.gpio_evt_queue with
    | none => Outcome.abort w
    | some q =>
      match xQueueReceive q with
      | none => Outcome.cont w
      | some (io_num, q1) =>
        let w1 := { w with gpio_evt_queue := some q1 }
        let level : Bool := p.gpio_get_level io_num != 0
        let ev := if level then gpio_int_type_t.GPIO_INTR_POSEDGE
                  else gpio_int_type_t.GPIO_INTR_NEGEDGE
        if ev = gpio_int_type_t.GPIO_INTR_POSEDGE then
          Outcome.cont (set_system_state w1 sys_state_t.SYS_OTA_REQUESTED)
        else Outcome.cont w1
  else Outcome.cont w

/-- `gpio_toggle`: drive level 0 when the flag is set, 1 otherwise. -/
def gpio_toggle (c : Kconfig) (gpio_num : Nat) (toogle : Bool) (w : World) : esp_err_t × World :=
  let level := if toogle then 0 else 1
  gpio_set_level c gpio_num level w

/-- One pass of the `while (true)` body of `Task_app`. -/
def Task_app (c : Kconfig) (w : World) : Outcome :=
  if w.system_state = sys_state_t.SYS_RUN then
    let r := gpio_toggle c c.GPIO_OUT_PIN w.toogle_led w
    ESP_ERROR_CHECK r.1 r.2 fun w1 => Outcome.cont { w1 with toogle_led := !w1.toogle_led }
  else Outcome.cont w

/-- The trigger type selected by the `#if` chain of `gpio_init`. -/
def configured_intr_type (c : Kconfig) : gpio_int_type_t :=
  if c.GPIO_BTN_INTR_NEGEDGE then gpio_int_type_t.GPIO_INTR_NEGEDGE
  else if c.GPIO_BTN_INTR_POSEDGE then gpio_int_type_t.GPIO_INTR_POSEDGE
  else gpio_int_type_t.GPIO_INTR_ANYEDGE

/-- `gpio_init`: configure the output line, configure the button line, set the
button trigger type, create the event queue (the handle is stored as it comes,
NULL included, and the queue held before is not deleted), install the ISR
service and register the handler. -/
def gpio_init (c : Kconfig) (p : Platform) (w : World) : esp_err_t × World :=
  let io_conf : gpio_config_t :=
    { pin_bit_mask := 2 ^ c.GPIO_OUT_PIN
      mode := gpio_mode_t.GPIO_MODE_OUTPUT
      pull_up_en := false
      pull_down_en := false
      intr_type := gpio_int_type_t.GPIO_INTR_DISABLE }
  let w := { w with out_conf := io_conf }
  let io_conf := { io_conf with intr_type := configured_intr_type c }
  let io_conf := { io_conf with pin_bit_mask := 2 ^ c.GPIO_BTN_PIN }
  let io_conf := { io_conf with mode := gpio_mode_t.GPIO_MODE_INPUT }
  let io_conf :=
    if c.GPIO_BTN_PULLUP then { io_conf with pull_up_en := true, pull_down_en := false }
    else if c.GPIO_BTN_PULLDOWN then { io_conf with pull_up_en := false, pull_down_en := true }
    else { io_conf with pull_up_en := false, pull_down_en := false }
  let w := { w with btn_conf := io_conf }
  let w := gpio_set_intr_type gpio_int_type_t.GPIO_INTR_POSEDGE w
  let w := { w with gpio_evt_queue := xQueueCreate p.xQueueCreate 10 }
  let err := p.gpio_install_isr_service
  let w := if err = ESP_OK then { w with isr_service := true } else w
  if err ≠ ESP_OK ∧ err ≠ ESP_ERR_INVALID_STATE then (err, w)
  else
    let err := p.gpio_isr_handler_add
    let w := if err = ESP_OK then { w with btn_isr_handler := some c.GPIO_BTN_PIN } else w
    if err ≠ ESP_OK then (err, w) else (ESP_OK, w)

/-- `peripherals_safe_outputs`: output to level 0, handler removed from the
button line, button interrupt disabled. The call is recorded once it is done. -/
def peripherals_safe_outputs (c : Kconfig) (w : World) : World :=
  let w := (gpio_set_level c c.GPIO_OUT_PIN 0 w).2
  let w := gpio_isr_handler_remove w
  let w := gpio_set_intr_type gpio_int_type_t.GPIO_INTR_DISABLE w
  record w Call.peripherals_safe_outputs

/-! ## ota_hal.c -/

/-- `strip_newline` on the characters of the buffer: trailing line feeds and
carriage returns are cut off. -/
def strip_newline_chars (s : List Char) : List Char :=
  (s.reverse.dropWhile fun ch => ch = '\n' || ch = '\r').reverse

/-- `strip_newline` of ota_hal.c. -/
def strip_newline (s : String) : String :=
  String.mk (strip_newline_chars s.data)

/-- `ota_hal_init`: the configuration is usable when a URL is present. -/
def ota_hal_init (c : Kconfig) (w : World) : esp_err_t × World :=
  match c.ota_cfg.url with
  | none => (ESP_ERR_INVALID_ARG, { w with s_inited := false })
  | some _ => (ESP_OK, { w with s_inited := true })

/-- Modelled from the spec: validation-mark collaborator `read_state`
(`esp_ota_get_state_partition`, not part of the sources): on success the mark
of the running image is stored through the out-parameter. -/
def esp_ota_get_state_partition (p : Platform) (w : World)
    (state : esp_ota_img_states_t) : esp_err_t × esp_ota_img_states_t :=
  if p.esp_ota_get_state_partition = ESP_OK then (ESP_OK, w.ota_state)
  else (p.esp_ota_get_state_partition, state)

/-- Modelled from the spec: validation-mark collaborator
`confirm_and_cancel_rollback` (`esp_ota_mark_app_valid_cancel_rollback`, not
part of the sources): on success the mark of the running image reads
confirmed. The call is recorded. -/
def esp_ota_mark_app_valid_cancel_rollback (p : Platform) (w : World) : esp_err_t × World :=
  let w := record w Call.esp_ota_mark_app_valid_cancel_rollback
  if p.esp_ota_mark_app_valid_cancel_rollback = ESP_OK then
    (ESP_OK, { w with ota_state := esp_ota_img_states_t.ESP_OTA_IMG_VALID })
  else (p.esp_ota_mark_app_valid_cancel_rollback, w)

/-- `ota_hal_mark_app_valid_if_needed`. -/
def ota_hal_mark_app_valid_if_needed (p : Platform) (w : World) : esp_err_t × World :=
  match w.running_partition with
  | none => (ESP_FAIL, w)
  | some _ =>
    let r := esp_ota_get_state_partition p w esp_ota_img_states_t.ESP_OTA_IMG_UNDEFINED
    if r.1 = ESP_OK ∧ r.2 = esp_ota_img_states_t.ESP_OTA_IMG_PENDING_VERIFY then
      esp_ota_mark_app_valid_cancel_rollback p w
    else (ESP_OK, w)

/-- How a call of `ota_hal_start` ends. -/
inductive StartResult where
  /-- The function returned this error code. -/
  | returned (err : esp_err_t) (w : World)
  /-- The function called `esp_restart` and did not return. -/
  | restarted (w : World)
deriving DecidableEq, Repr

/-- The URL comes from stdin when that option is built in and the configured
URL is the literal FROM_STDIN (`strcmp` of ota_hal_start). -/
def url_from_stdin (c : Kconfig) : Bool :=
  c.EXAMPLE_FIRMWARE_UPGRADE_URL_FROM_STDIN && c.ota_cfg.url == some "FROM_STDIN"

/-- The `http_cfg` that ota_hal_start hands to the fetch, for the URL in use. -/
def ota_hal_http_cfg (c : Kconfig) (w : World) (url : Option String) : esp_http_client_config_t :=
  { url := url
    keep_alive_enable := c.ota_cfg.keep_alive
    buffer_size_tx := 8192
    buffer_size := 4096
    timeout_ms := 30000
    if_name := if c.EXAMPLE_FIRMWARE_UPGRADE_BIND_IF then w.s_netif_sta else none
    crt_bundle_attach := c.USE_CERT_BUNDLE
    cert_pem := !c.USE_CERT_BUNDLE
    skip_cert_common_name_check := c.EXAMPLE_SKIP_COMMON_NAME_CHECK || c.ota_cfg.skip_cn_check }

/-- The URL that ota_hal_start fetches from: the line read from stdin, without
its line end, or the configured one. -/
def ota_hal_url (c : Kconfig) (p : Platform) : Option String :=
  if url_from_stdin c then p.fgets.map strip_newline else c.ota_cfg.url

/-- `ota_hal_start`: refuse when not initialised, optionally read the URL from
stdin, optionally bind to the station interface, fetch and flash, restart on
success, return the error otherwise. -/
def ota_hal_start (c : Kconfig) (p : Platform) (w : World) : StartResult :=
  let w := record w Call.ota_hal_start
  if !w.s_inited then StartResult.returned ESP_ERR_INVALID_STATE w
  else if url_from_stdin c && p.fgets.isNone then StartResult.returned ESP_FAIL w
  else if c.EXAMPLE_FIRMWARE_UPGRADE_BIND_IF && w.s_netif_sta.isNone then
    StartResult.returned ESP_ERR_INVALID_STATE w
  else
    let w := record w (Call.esp_https_ota (ota_hal_http_cfg c w (ota_hal_url c p)))
    let ret := p.esp_https_ota
    if ret = ESP_OK then StartResult.restarted (record w Call.esp_restart)
    else StartResult.returned ret w

/-! ## Lifecycle orchestrator -/

/-- One pass of the `while (true)` body of `Task_ota`. -/
def Task_ota (c : Kconfig) (p : Platform) (w : World) : Outcome :=
  match w.system_state with
  | .SYS_OTA_REQUESTED =>
    let r := ota_hal_init c w
    ESP_ERROR_CHECK r.1 r.2 fun w1 =>
      Outcome.cont (set_system_state w1 sys_state_t.SYS_OTA_PREPARE)
  | .SYS_OTA_PREPARE =>
    Outcome.cont (set_system_state (peripherals_safe_outputs c w) sys_state_t.SYS_OTA_RUNNING)
  | .SYS_OTA_RUNNING =>
    match ota_hal_start c p w with
    | .returned err w1 =>
      if err ≠ ESP_OK then Outcome.cont (set_system_state w1 sys_state_t.SYS_OTA_FAILED)
      else Outcome.cont w1
    | .restarted w1 => Outcome.restart w1
  | .SYS_OTA_FAILED =>
    let r := gpio_init c p w
    ESP_ERROR_CHECK r.1 r.2 fun w1 => Outcome.cont (set_system_state w1 sys_state_t.SYS_RUN)
  | .SYS_RUN => Outcome.cont w

/-! ## Boot: wifi.c and app_main -/

def ESP_ERR_NO_MEM : esp_err_t := 0x101
def ESP_ERR_NVS_NO_FREE_PAGES : esp_err_t := 0x110d
def ESP_ERR_NVS_NEW_VERSION_FOUND : esp_err_t := 0x1110

/-- `WIFI_CONNECTED_BIT` of wifi.c (`BIT0`). -/
def WIFI_CONNECTED_BIT : Nat := 1

/-- `WIFI_FAIL_BIT` of wifi.c (`BIT1`). -/
def WIFI_FAIL_BIT : Nat := 2

/-- Results of the platform calls made while booting, in the order app_main
meets them, and the build option `CONFIG_EXAMPLE_WIFI_SSID_PWD_FROM_STDIN`. -/
structure BootPlatform where
  nvs_flash_init_first : esp_err_t
  nvs_flash_erase : esp_err_t
  nvs_flash_init_second : esp_err_t
  esp_netif_init : esp_err_t
  esp_event_loop_create_default : esp_err_t
  xEventGroupCreate : Bool
  esp_netif_create_default_wifi_sta : Option String
  esp_wifi_init : esp_err_t
  EXAMPLE_WIFI_SSID_PWD_FROM_STDIN : Bool
  fgets_ssid : Option String
  fgets_pwd : Option String
  register_wifi_event : esp_err_t
  register_ip_event : esp_err_t
  esp_wifi_set_mode : esp_err_t
  esp_wifi_set_config : esp_err_t
  esp_wifi_start : esp_err_t
  xEventGroupWaitBits : Nat
  unregister_ip_event : esp_err_t
  unregister_wifi_event : esp_err_t
  esp_wifi_set_ps : esp_err_t

/-- `wifi_init_connection` of wifi.c: the first failing call decides the
result; the station interface handle is stored once the event group exists. -/
def wifi_init_connection (b : BootPlatform) (w : World) : esp_err_t × World :=
  if b.esp_netif_init ≠ ESP_OK then (b.esp_netif_init, w)
  else if b.esp_event_loop_create_default ≠ ESP_OK then (b.esp_event_loop_create_default, w)
  else if !b.xEventGroupCreate then (ESP_ERR_NO_MEM, w)
  else
    let w := { w with s_netif_sta := b.esp_netif_create_default_wifi_sta }
    if b.esp_wifi_init ≠ ESP_OK then (b.esp_wifi_init, w) else (ESP_OK, w)

/-- How `wifi_connect_sta` ends: with a return value, or in the fatal-error
handler through one of its own `ESP_ERROR_CHECK` lines. -/
inductive WifiResult where
  | returned (err : esp_err_t)
  | aborted
deriving DecidableEq, Repr

/-- `wifi_connect_sta` of wifi.c, as far as its result goes (it writes none of
the globals of `World`; the credentials themselves are not observed). -/
def wifi_connect_sta (b : BootPlatform) : WifiResult :=
  if b.EXAMPLE_WIFI_SSID_PWD_FROM_STDIN && b.fgets_ssid.isNone then WifiResult.returned ESP_FAIL
  else if b.EXAMPLE_WIFI_SSID_PWD_FROM_STDIN && b.fgets_pwd.isNone then
    WifiResult.returned ESP_FAIL
  else if b.register_wifi_event ≠ ESP_OK then WifiResult.aborted
  else if b.register_ip_event ≠ ESP_OK then WifiResult.aborted
  else if b.esp_wifi_set_mode ≠ ESP_OK then WifiResult.aborted
  else if b.esp_wifi_set_config ≠ ESP_OK then WifiResult.aborted
  else if b.esp_wifi_start ≠ ESP_OK then WifiResult.aborted
  else
    let bits := b.xEventGroupWaitBits
    let ret : esp_err_t :=
      if bits &&& WIFI_CONNECTED_BIT ≠ 0 then ESP_OK
      else if bits &&& WIFI_FAIL_BIT ≠ 0 then ESP_FAIL
      else ESP_FAIL
    if b.unregister_ip_event ≠ ESP_OK then WifiResult.aborted
    else if b.unregister_wifi_event ≠ ESP_OK then WifiResult.aborted
    else WifiResult.returned ret

/-- `wifi_disable_powersave` of wifi.c. -/
def wifi_disable_powersave (b : BootPlatform) : esp_err_t :=
  b.esp_wifi_set_ps

/-- The world at power-on, before app_main: the C globals hold their static
initialisers, no GPIO line is configured, the output drives level 0, and the
update subsystem holds the given running partition and validation mark. -/
def power_on (running_partition : Option Nat) (ota_state : esp_ota_img_states_t) : World :=
  { system_state := sys_state_t.SYS_RUN
    toogle_led := false
    gpio_evt_queue := none
    s_inited := false
    s_netif_sta := none
    out_level := 0
    out_conf := { pin_bit_mask := 0, mode := gpio_mode_t.GPIO_MODE_DISABLE, pull_up_en := false,
                  pull_down_en := false, intr_type := gpio_int_type_t.GPIO_INTR_DISABLE }
    btn_conf := { pin_bit_mask := 0, mode := gpio_mode_t.GPIO_MODE_DISABLE, pull_up_en := false,
                  pull_down_en := false, intr_type := gpio_int_type_t.GPIO_INTR_DISABLE }
    btn_isr_handler := none
    isr_service := false
    running_partition := running_partition
    ota_state := ota_state
    hist := []
    calls := [] }

/-- `app_main`: non-volatile storage, peripherals, Wi-Fi, boot validation, each
under `ESP_ERROR_CHECK`; when it returns the three tasks exist. -/
def app_main (c : Kconfig) (b : BootPlatform) (p : Platform) (w : World) : Outcome :=
  let ret := b.nvs_flash_init_first
  let erase : Bool :=
    decide (ret = ESP_ERR_NVS_NO_FREE_PAGES) || decide (ret = ESP_ERR_NVS_NEW_VERSION_FOUND)
  if erase && decide (b.nvs_flash_erase ≠ ESP_OK) then Outcome.abort w
  else
    let ret := if erase then b.nvs_flash_init_second else ret
    ESP_ERROR_CHECK ret w fun w =>
    ESP_ERROR_CHECK (gpio_init c p w).1 (gpio_init c p w).2 fun w =>
    ESP_ERROR_CHECK (wifi_init_connection b w).1 (wifi_init_connection b w).2 fun w =>
    match wifi_connect_sta b with
    | .aborted => Outcome.abort w
    | .returned err =>
      ESP_ERROR_CHECK err w fun w =>
      ESP_ERROR_CHECK (wifi_disable_powersave b) w fun w =>
      ESP_ERROR_CHECK (ota_hal_mark_app_valid_if_needed p w).1
        (ota_hal_mark_app_valid_if_needed p w).2 fun w => Outcome.cont w

/-! ## Lifecycle order -/

/-- The value of a lifecycle state in the C enumeration `sys_state_t`. -/
def sys_state_t.toNat : sys_state_t → Nat
  | .SYS_RUN => 0
  | .SYS_OTA_REQUESTED => 1
  | .SYS_OTA_PREPARE => 2
  | .SYS_OTA_RUNNING => 3
  | .SYS_OTA_FAILED => 4

/-- The successor of a lifecycle state in the pass Running, UpdateRequested,
Preparing, Fetching, Failed and back to Running. -/
def sys_state_t.next : sys_state_t → sys_state_t
  | .SYS_RUN => .SYS_OTA_REQUESTED
  | .SYS_OTA_REQUESTED => .SYS_OTA_PREPARE
  | .SYS_OTA_PREPARE => .SYS_OTA_RUNNING
  | .SYS_OTA_RUNNING => .SYS_OTA_FAILED
  | .SYS_OTA_FAILED => .SYS_RUN

/-- What holds of the peripherals and the OTA HAL along a run: while fetching
the output is idle, the button line has no handler and no interrupt and the
HAL is initialised; the HAL is initialised already while preparing; an output
pin that cannot be driven stays at level 0. -/
def quiesced_inv (c : Kconfig) (w : World) : Prop :=
  (w.system_state = sys_state_t.SYS_OTA_RUNNING →
    w.out_level = 0 ∧ w.btn_isr_handler = none ∧
    w.btn_conf.intr_type = gpio_int_type_t.GPIO_INTR_DISABLE ∧ w.s_inited = true) ∧
  (w.system_state = sys_state_t.SYS_OTA_PREPARE → w.s_inited = true) ∧
  ( GPIO_IS_VALID_OUTPUT_GPIO c c.GPIO_OUT_PIN = false → w.out_level = 0)

/-! ## Schedules -/

/-- One scheduling decision: a physical edge on the button line, or one loop
body of a task together with the platform results it meets. -/
inductive Action where
  | edge (rising : Bool)
  | per (p : Platform)
  | app
  | ota (p : Platform)

/-- Run one action. -/
def step (c : Kconfig) (a : Action) (w : World) : Outcome :=
  match a with
  | .edge rising => gpio_edge rising w
  | .per p => Task_per p w
  | .app => Task_app c w
  | .ota p => Task_ota c p w

/-- Run a schedule; a restart or a fatal error ends the run. -/
def exec (c : Kconfig) : List Action → World → Outcome
  | [], w => Outcome.cont w
  | a :: rest, w =>
    match step c a w with
    | .cont w1 => exec c rest w1
    | o => o

/-- Actions other than a poll of the orchestrator. -/
def Action.isNoise : Action → Bool
  | .ota _ => false
  | _ => true

/-- Run a schedule for one lifecycle pass: like exec, but the run also ends as
soon as the lifecycle state is found back at SYS_RUN. -/
def exec_pass (c : Kconfig) : List Action → World → Outcome
  | [], w => Outcome.cont w
  | a :: rest, w =>
    if w.system_state = sys_state_t.SYS_RUN then Outcome.cont w
    else
      match step c a w with
      | .cont w1 => exec_pass c rest w1
      | o => o

/-- A pass is complete when the device restarted or the state is back at SYS_RUN. -/
def Outcome.pass_done : Outcome → Bool
  | .cont w => decide (w.system_state = sys_state_t.SYS_RUN)
  | .restart _ => true
  | .abort _ => false

/-- What ota_hal_start may record after its own entry: nothing, the fetch, or
the fetch followed by the restart. -/
def is_fetch_tail : List Call → Bool
  | [] => true
  | [Call.esp_https_ota _] => true
  | [Call.esp_https_ota _, Call.esp_restart] => true
  | _ => false

/-- Calls recorded since a pass began with the log at `pre`, by lifecycle state:
none before the quiescer ran, the quiescer alone while the fetch is due, and
quiescer, ota_hal_start and what the latter recorded from then on. -/
def pass_inv (pre : List Call) (w : World) : Prop :=
  match w.system_state with
  | .SYS_OTA_REQUESTED => w.calls = pre
  | .SYS_OTA_PREPARE => w.calls = pre
  | .SYS_OTA_RUNNING => w.calls = pre ++ [Call.peripherals_safe_outputs]
  | .SYS_OTA_FAILED => ∃ t, w.calls = pre ++ Call.peripherals_safe_outputs :: Call.ota_hal_start :: t
      ∧ is_fetch_tail t = true
  | .SYS_RUN => ∃ t, w.calls = pre ++ Call.peripherals_safe_outputs :: Call.ota_hal_start :: t
      ∧ is_fetch_tail t = true

/-- What pass_inv becomes at the end of a run: the invariant when the run
returned or aborted, the full sequence of calls when the device restarted. -/
def pass_post (pre : List Call) : Outcome → Prop
  | .cont w1 => pass_inv pre w1
  | .abort w1 => pass_inv pre w1
  | .restart w1 => ∃ cfg, w1.calls = pre ++ [Call.peripherals_safe_outputs, Call.ota_hal_start,
      Call.esp_https_ota cfg, Call.esp_restart]

/-! ## Concrete inputs -/

/-- A build with button on pin 4 (rising edge, pull-down), output on pin 2 and
a firmware URL. -/
def demo_cfg : Kconfig :=
  { GPIO_BTN_PIN := 4
    GPIO_OUT_PIN := 2
    GPIO_BTN_INTR_NEGEDGE := false
    GPIO_BTN_INTR_POSEDGE := true
    GPIO_BTN_PULLUP := false
    GPIO_BTN_PULLDOWN := true
    EXAMPLE_FIRMWARE_UPGRADE_URL_FROM_STDIN := false
    EXAMPLE_FIRMWARE_UPGRADE_BIND_IF := false
    USE_CERT_BUNDLE := true
    EXAMPLE_SKIP_COMMON_NAME_CHECK := false
    ota_cfg := { url := some "https://example.com/fw.bin", keep_alive := true,
                 skip_cn_check := false }
    SOC_GPIO_VALID_OUTPUT_GPIO_MASK := 0xFFFFFFFF }

/-- Platform results parameterised by the button level read back, the fetch
result and the result of installing the ISR service; the other calls succeed. -/
def demo_platform (level : Int) (fetch install : esp_err_t) : Platform :=
  { gpio_get_level := fun _ => level
    xQueueCreate := true
    fgets := none
    esp_https_ota := fetch
    gpio_install_isr_service := install
    gpio_isr_handler_add := ESP_OK
    esp_ota_get_state_partition := ESP_OK
    esp_ota_mark_app_valid_cancel_rollback := ESP_OK }

/-- A world in normal operation under demo_cfg with the given queue content:
peripherals initialised, nothing requested yet. -/
def demo_world (items : List Nat) : World :=
  { system_state := sys_state_t.SYS_RUN
    toogle_led := false
    gpio_evt_queue := some { items := items, uxQueueLength := 10 }
    s_inited := false
    s_netif_sta := some "st1"
    out_level := 0
    out_conf := { pin_bit_mask := 4, mode := gpio_mode_t.GPIO_MODE_OUTPUT, pull_up_en := false,
                  pull_down_en := false, intr_type := gpio_int_type_t.GPIO_INTR_DISABLE }
    btn_conf := { pin_bit_mask := 16, mode := gpio_mode_t.GPIO_MODE_INPUT, pull_up_en := false,
                  pull_down_en := true, intr_type := gpio_int_type_t.GPIO_INTR_POSEDGE }
    btn_isr_handler := some 4
    isr_service := true
    running_partition := some 0
    ota_state := esp_ota_img_states_t.ESP_OTA_IMG_VALID
    hist := []
    calls := [] }

/-- The demo build with the URL of the OTA table left NULL. -/
def no_url_cfg : Kconfig :=
  { demo_cfg with ota_cfg := { url := none, keep_alive := true, skip_cn_check := false } }

/-- The demo world right after Task_per accepted a request. -/
def requested_world : World :=
  set_system_state (demo_world []) sys_state_t.SYS_OTA_REQUESTED

/-- A schedule for a failing pass from requested_world: four polls of the
orchestrator with an edge, an application tick and a Task_per cycle in between;
the fetch fails and the peripherals are restored. -/
def demo_failing_pass : List Action :=
  [Action.ota (demo_platform 1 ESP_FAIL ESP_OK), Action.edge true,
   Action.ota (demo_platform 1 ESP_FAIL ESP_OK), Action.app,
   Action.ota (demo_platform 1 ESP_FAIL ESP_OK),
   Action.per (demo_platform 1 ESP_FAIL ESP_OK),
   Action.ota (demo_platform 1 ESP_FAIL ESP_ERR_INVALID_STATE),
   Action.ota (demo_platform 1 ESP_FAIL ESP_OK)]

/-- What follows a burst in the demo: a failing pass, and after the return to
SYS_RUN more cycles of the three tasks, all reading the line high; no edge. -/
def demo_aftermath : List Action :=
  [Action.ota (demo_platform 1 ESP_FAIL ESP_OK), Action.per (demo_platform 1 ESP_FAIL ESP_OK),
   Action.ota (demo_platform 1 ESP_FAIL ESP_OK), Action.app,
   Action.ota (demo_platform 1 ESP_FAIL ESP_OK),
   Action.ota (demo_platform 1 ESP_FAIL ESP_ERR_INVALID_STATE),
   Action.per (demo_platform 1 ESP_FAIL ESP_OK), Action.app,
   Action.ota (demo_platform 1 ESP_FAIL ESP_OK), Action.per (demo_platform 1 ESP_FAIL ESP_OK)]

/-- The demo world after a pass whose fetch failed: quiesced by the poll at
SYS_OTA_PREPARE, now at SYS_OTA_FAILED. -/
def failed_world : World :=
  (exec demo_cfg [Action.ota (demo_platform 1 ESP_FAIL ESP_OK),
    Action.ota (demo_platform 1 ESP_FAIL ESP_OK),
    Action.ota (demo_platform 1 ESP_FAIL ESP_OK)] requested_world).world

/-- Platform results of a recovery poll on an exhausted heap: xQueueCreate
returns NULL, the ISR service is already installed, the handler is registered. -/
def heap_exhausted : Platform :=
  { demo_platform 1 ESP_FAIL ESP_ERR_INVALID_STATE with xQueueCreate := false }

/-- The world in which the poll at SYS_OTA_FAILED leaves failed_world when
xQueueCreate returned NULL. -/
def recovered_without_queue : World :=
  (Task_ota demo_cfg heap_exhausted failed_world).world

/-- The demo world at boot with the running image still pending verification. -/
def pending_world : World :=
  { demo_world [] with ota_state := esp_ota_img_states_t.ESP_OTA_IMG_PENDING_VERIFY }

/-- The demo build with the button trigger configured as falling edge. -/
def negedge_cfg : Kconfig :=
  { demo_cfg with GPIO_BTN_INTR_NEGEDGE := true, GPIO_BTN_INTR_POSEDGE := false }

/-- The world gpio_init leaves under negedge_cfg, with one edge event pending. -/
def negedge_world : World :=
  { (gpio_init negedge_cfg (demo_platform 0 ESP_FAIL ESP_OK) (demo_world [])).2 with
    gpio_evt_queue := some { items := [4], uxQueueLength := 10 } }

/-- The demo world with a request pending and two edge events still queued. -/
def backlog_world : World :=
  set_system_state (demo_world [4, 4]) sys_state_t.SYS_OTA_REQUESTED

/-- Boot-time platform results: everything succeeds and Wi-Fi connects. -/
def demo_boot : BootPlatform :=
  { nvs_flash_init_first := ESP_OK
    nvs_flash_erase := ESP_OK
    nvs_flash_init_second := ESP_OK
    esp_netif_init := ESP_OK
    esp_event_loop_create_default := ESP_OK
    xEventGroupCreate := true
    esp_netif_create_default_wifi_sta := some "st1"
    esp_wifi_init := ESP_OK
    EXAMPLE_WIFI_SSID_PWD_FROM_STDIN := false
    fgets_ssid := none
    fgets_pwd := none
    register_wifi_event := ESP_OK
    register_ip_event := ESP_OK
    esp_wifi_set_mode := ESP_OK
    esp_wifi_set_config := ESP_OK
    esp_wifi_start := ESP_OK
    xEventGroupWaitBits := 1
    unregister_ip_event := ESP_OK
    unregister_wifi_event := ESP_OK
    esp_wifi_set_ps := ESP_OK }

/-- Platform results with the registration of the button handler failing. -/
def handler_add_fails : Platform :=
  { demo_platform 1 ESP_FAIL ESP_ERR_INVALID_STATE with gpio_isr_handler_add := ESP_FAIL }

/-- A schedule from boot: an edge, the request, the pass up to the fetch, with
application ticks and a further edge in between. -/
def demo_to_fetching : List Action :=
  [Action.app, Action.edge true, Action.app, Action.per (demo_platform 1 ESP_FAIL ESP_OK),
   Action.app, Action.ota (demo_platform 1 ESP_FAIL ESP_OK), Action.edge true,
   Action.ota (demo_platform 1 ESP_FAIL ESP_OK), Action.app,
   Action.per (demo_platform 1 ESP_FAIL ESP_OK)]

/-- The demo device after app_main: everything at boot succeeded and the
running image, pending verification at power-on, was confirmed. -/
def demo_booted : World :=
  (app_main demo_cfg demo_boot (demo_platform 0 ESP_FAIL ESP_OK)
    (power_on (some 0) esp_ota_img_states_t.ESP_OTA_IMG_PENDING_VERIFY)).world

/-! ## Basic facts about steps and schedules -/

theorem exec_append (c : Kconfig) (l1 l2 : List Action) (w : World) :
    exec c (l1 ++ l2) w =
      match exec c l1 w with
      | .cont w1 => exec c l2 w1
      | o => o := by
  induction l1 generalizing w with
  | nil => simp [exec]
  | cons a l ih =>
    simp only [List.cons_append, exec]
    cases h : step c a w <;> simp [ih]

theorem exec_singleton (c : Kconfig) (a : Action) (w : World) :
    exec c [a] w = step c a w := by
  simp only [exec]
  cases step c a w <;> rfl

/-- Outside SYS_RUN, with a queue in place, an edge or a loop body of Task_per
or Task_app changes at most the content of the event queue. -/
theorem noise_step (c : Kconfig) (a : Action) (w : World) (q : Queue)
    (ha : a.isNoise = true) (hs : w.system_state ≠ sys_state_t.SYS_RUN)
    (hq : w.gpio_evt_queue = some q) :
    ∃ q1, step c a w = Outcome.cont { w with gpio_evt_queue := some q1 } := by
  cases a with
  | edge rising =>
    simp only [step, gpio_edge]
    split
    · exact ⟨q, by rw [← hq]⟩
    · rename_i arg _
      split
      · exact ⟨xQueueSendFromISR q (arg % 2 ^ 32), by simp [gpio_isr_handler, hq]⟩
      · exact ⟨q, by rw [← hq]⟩
  | per p => exact ⟨q, by simp only [step, Task_per, hs, if_false]; rw [← hq]⟩
  | app => exact ⟨q, by simp only [step, Task_app, hs, if_false]; rw [← hq]⟩
  | ota p => simp [Action.isNoise] at ha

theorem noise_exec (c : Kconfig) (ns : List Action) (w : World) (q : Queue)
    (hns : ∀ a ∈ ns, a.isNoise = true) (hs : w.system_state ≠ sys_state_t.SYS_RUN)
    (hq : w.gpio_evt_queue = some q) :
    ∃ q1, exec c ns w = Outcome.cont { w with gpio_evt_queue := some q1 } := by
  induction ns generalizing w q with
  | nil => exact ⟨q, by rw [← hq]; rfl⟩
  | cons a l ih =>
    obtain ⟨q1, h1⟩ := noise_step c a w q (hns a (List.mem_cons_self a l)) hs hq
    obtain ⟨q2, h2⟩ := ih { w with gpio_evt_queue := some q1 } q1
      (fun b hb => hns b (List.mem_cons_of_mem a hb)) hs rfl
    exact ⟨q2, by simp only [exec, h1, h2]⟩

/-- A poll of the orchestrator preceded by other activity outside SYS_RUN sees
the world of before, up to the content of the event queue. -/
theorem noise_then_ota (c : Kconfig) (ns : List Action) (p : Platform) (w : World) (q : Queue)
    (hns : ∀ a ∈ ns, a.isNoise = true) (hs : w.system_state ≠ sys_state_t.SYS_RUN)
    (hq : w.gpio_evt_queue = some q) :
    ∃ q1, exec c (ns ++ [Action.ota p]) w =
      Task_ota c p { w with gpio_evt_queue := some q1 } := by
  obtain ⟨q1, h1⟩ := noise_exec c ns w q hns hs hq
  exact ⟨q1, by rw [exec_append, h1]; simp [exec_singleton, step]⟩

theorem exec_append_cont (c : Kconfig) (l1 l2 : List Action) (w w1 : World)
    (h : exec c l1 w = Outcome.cont w1) : exec c (l1 ++ l2) w = exec c l2 w1 := by
  rw [exec_append, h]

theorem exec_cons_cont (c : Kconfig) (a : Action) (l : List Action) (w w1 : World)
    (h : step c a w = Outcome.cont w1) : exec c (a :: l) w = exec c l w1 := by
  simp only [exec, h]

/-- Task_per at SYS_RUN with an event at the head of the queue. -/
theorem Task_per_run_head (p : Platform) (w : World) (q : Queue) (io_num : Nat)
    (rest : List Nat) (hs : w.system_state = sys_state_t.SYS_RUN)
    (hq : w.gpio_evt_queue = some q) (hi : q.items = io_num :: rest) :
    Task_per p w =
      if p.gpio_get_level io_num ≠ 0 then
        Outcome.cont (set_system_state { w with gpio_evt_queue := some { q with items := rest } }
          sys_state_t.SYS_OTA_REQUESTED)
      else Outcome.cont { w with gpio_evt_queue := some { q with items := rest } } := by
  by_cases hl : p.gpio_get_level io_num = 0 <;>
    simp [Task_per, hs, hq, xQueueReceive, hi, hl]

/-- What ota_hal_start leaves behind when the fetch does not succeed: an error
code, and the world of before with more recorded calls. -/
theorem ota_hal_start_error (c : Kconfig) (p : Platform) (w : World)
    (hf : p.esp_https_ota ≠ ESP_OK) :
    ∃ err cs, err ≠ ESP_OK ∧
      ota_hal_start c p w = StartResult.returned err { w with calls := w.calls ++ cs } := by
  unfold ota_hal_start
  simp only [record]
  split_ifs
  · exact ⟨ESP_ERR_INVALID_STATE, [Call.ota_hal_start], by decide, rfl⟩
  · exact ⟨ESP_FAIL, [Call.ota_hal_start], by decide, rfl⟩
  · exact ⟨ESP_ERR_INVALID_STATE, [Call.ota_hal_start], by decide, rfl⟩
  · exact ⟨p.esp_https_ota, [Call.ota_hal_start, Call.esp_https_ota
      (ota_hal_http_cfg c (record w Call.ota_hal_start) (ota_hal_url c p))], hf, by simp [record]⟩

/-- The result of gpio_init is decided by the two ISR registration calls. -/
theorem gpio_init_ok_iff (c : Kconfig) (p : Platform) (w : World) :
    (gpio_init c p w).1 = ESP_OK ↔
      (p.gpio_install_isr_service = ESP_OK ∨ p.gpio_install_isr_service = ESP_ERR_INVALID_STATE)
        ∧ p.gpio_isr_handler_add = ESP_OK := by
  unfold gpio_init
  by_cases h1 : p.gpio_install_isr_service = ESP_OK <;>
    by_cases h2 : p.gpio_install_isr_service = ESP_ERR_INVALID_STATE <;>
    by_cases h3 : p.gpio_isr_handler_add = ESP_OK <;>
    simp [h1, h2, h3]

/-- The world left by a successful gpio_init. -/
theorem gpio_init_ok (c : Kconfig) (p : Platform) (w : World)
    (h1 : p.gpio_install_isr_service = ESP_OK ∨ p.gpio_install_isr_service = ESP_ERR_INVALID_STATE)
    (h2 : p.gpio_isr_handler_add = ESP_OK) :
    (gpio_init c p w).1 = ESP_OK ∧
    (gpio_init c p w).2.system_state = w.system_state ∧
    (gpio_init c p w).2.hist = w.hist ∧
    (gpio_init c p w).2.calls = w.calls ∧
    (gpio_init c p w).2.s_inited = w.s_inited ∧
    (gpio_init c p w).2.gpio_evt_queue = xQueueCreate p.xQueueCreate 10 ∧
    (gpio_init c p w).2.btn_isr_handler = some c.GPIO_BTN_PIN ∧
    (gpio_init c p w).2.btn_conf.intr_type = gpio_int_type_t.GPIO_INTR_POSEDGE ∧
    (gpio_init c p w).2.isr_service = (w.isr_service || decide (p.gpio_install_isr_service = ESP_OK)) := by
  unfold gpio_init
  rcases h1 with h1 | h1 <;>
    simp [h1, h2, gpio_set_intr_type, xQueueCreate, ESP_OK, ESP_ERR_INVALID_STATE]

/-! ## The orchestrator poll, state by state -/

theorem Task_ota_run (c : Kconfig) (p : Platform) (w : World)
    (hs : w.system_state = sys_state_t.SYS_RUN) : Task_ota c p w = Outcome.cont w := by
  simp only [Task_ota, hs]

theorem Task_ota_requested (c : Kconfig) (p : Platform) (w : World)
    (hs : w.system_state = sys_state_t.SYS_OTA_REQUESTED) :
    Task_ota c p w =
      ESP_ERROR_CHECK (ota_hal_init c w).1 (ota_hal_init c w).2 fun w1 =>
        Outcome.cont (set_system_state w1 sys_state_t.SYS_OTA_PREPARE) := by
  simp only [Task_ota, hs]

theorem Task_ota_prepare (c : Kconfig) (p : Platform) (w : World)
    (hs : w.system_state = sys_state_t.SYS_OTA_PREPARE) :
    Task_ota c p w =
      Outcome.cont (set_system_state (peripherals_safe_outputs c w) sys_state_t.SYS_OTA_RUNNING) := by
  simp only [Task_ota, hs]

theorem Task_ota_running (c : Kconfig) (p : Platform) (w : World)
    (hs : w.system_state = sys_state_t.SYS_OTA_RUNNING) :
    Task_ota c p w =
      match ota_hal_start c p w with
      | .returned err w1 =>
        if err ≠ ESP_OK then Outcome.cont (set_system_state w1 sys_state_t.SYS_OTA_FAILED)
        else Outcome.cont w1
      | .restarted w1 => Outcome.restart w1 := by
  simp only [Task_ota, hs]

theorem Task_ota_failed (c : Kconfig) (p : Platform) (w : World)
    (hs : w.system_state = sys_state_t.SYS_OTA_FAILED) :
    Task_ota c p w =
      ESP_ERROR_CHECK (gpio_init c p w).1 (gpio_init c p w).2 fun w1 =>
        Outcome.cont (set_system_state w1 sys_state_t.SYS_RUN) := by
  simp only [Task_ota, hs]

/-! ## The four polls of a lifecycle pass, each after arbitrary other activity -/

/-- Poll at SYS_OTA_REQUESTED with a URL configured. -/
theorem stage_requested (c : Kconfig) (ns : List Action) (p : Platform) (w : World) (q : Queue)
    (u : String) (hns : ∀ a ∈ ns, a.isNoise = true)
    (hs : w.system_state = sys_state_t.SYS_OTA_REQUESTED)
    (hq : w.gpio_evt_queue = some q) (hu : c.ota_cfg.url = some u) :
    ∃ w1 q1, exec c (ns ++ [Action.ota p]) w = Outcome.cont w1 ∧
      w1.system_state = sys_state_t.SYS_OTA_PREPARE ∧
      w1.hist = w.hist ++ [sys_state_t.SYS_OTA_PREPARE] ∧
      w1.calls = w.calls ∧ w1.gpio_evt_queue = some q1 ∧ w1.s_inited = true ∧
      w1.s_netif_sta = w.s_netif_sta := by
  obtain ⟨q1, h1⟩ := noise_then_ota c ns p w q hns (by rw [hs]; decide) hq
  rw [h1, Task_ota_requested c p { w with gpio_evt_queue := some q1 } hs]
  simp only [ota_hal_init, hu, ESP_ERROR_CHECK, if_true]
  exact ⟨_, q1, rfl, by simp [set_system_state]⟩

/-- Poll at SYS_OTA_PREPARE. -/
theorem stage_prepare (c : Kconfig) (ns : List Action) (p : Platform) (w : World) (q : Queue)
    (hns : ∀ a ∈ ns, a.isNoise = true)
    (hs : w.system_state = sys_state_t.SYS_OTA_PREPARE)
    (hq : w.gpio_evt_queue = some q) :
    ∃ w1 q1, exec c (ns ++ [Action.ota p]) w = Outcome.cont w1 ∧
      w1.system_state = sys_state_t.SYS_OTA_RUNNING ∧
      w1.hist = w.hist ++ [sys_state_t.SYS_OTA_RUNNING] ∧
      w1.calls = w.calls ++ [Call.peripherals_safe_outputs] ∧
      w1.gpio_evt_queue = some q1 ∧ w1.s_inited = w.s_inited ∧
      w1.s_netif_sta = w.s_netif_sta := by
  obtain ⟨q1, h1⟩ := noise_then_ota c ns p w q hns (by rw [hs]; decide) hq
  rw [h1, Task_ota_prepare c p { w with gpio_evt_queue := some q1 } hs]
  refine ⟨_, q1, rfl, ?_⟩
  unfold peripherals_safe_outputs gpio_set_level
  split_ifs <;>
    simp [set_system_state, record, gpio_set_intr_type, gpio_isr_handler_remove]

/-- Poll at SYS_OTA_RUNNING when the fetch does not succeed. -/
theorem stage_running_error (c : Kconfig) (ns : List Action) (p : Platform) (w : World)
    (q : Queue) (hns : ∀ a ∈ ns, a.isNoise = true)
    (hs : w.system_state = sys_state_t.SYS_OTA_RUNNING)
    (hq : w.gpio_evt_queue = some q) (hf : p.esp_https_ota ≠ ESP_OK) :
    ∃ w1 q1 cs, exec c (ns ++ [Action.ota p]) w = Outcome.cont w1 ∧
      w1.system_state = sys_state_t.SYS_OTA_FAILED ∧
      w1.hist = w.hist ++ [sys_state_t.SYS_OTA_FAILED] ∧
      w1.calls = w.calls ++ cs ∧ w1.gpio_evt_queue = some q1 := by
  obtain ⟨q1, h1⟩ := noise_then_ota c ns p w q hns (by rw [hs]; decide) hq
  obtain ⟨err, cs, he, h2⟩ := ota_hal_start_error c p { w with gpio_evt_queue := some q1 } hf
  rw [h1, Task_ota_running c p { w with gpio_evt_queue := some q1 } hs, h2]
  simp only [ne_eq, he, not_false_eq_true, if_true]
  exact ⟨_, q1, cs, rfl, by simp [set_system_state, hs]⟩

/-- Poll at SYS_OTA_RUNNING when the fetch is reached and succeeds. -/
theorem stage_running_success (c : Kconfig) (ns : List Action) (p : Platform) (w : World)
    (q : Queue) (hns : ∀ a ∈ ns, a.isNoise = true)
    (hs : w.system_state = sys_state_t.SYS_OTA_RUNNING)
    (hq : w.gpio_evt_queue = some q) (hi : w.s_inited = true)
    (hstdin : url_from_stdin c = true → p.fgets.isSome = true)
    (hnet : c.EXAMPLE_FIRMWARE_UPGRADE_BIND_IF = true → w.s_netif_sta.isSome = true)
    (hf : p.esp_https_ota = ESP_OK) :
    ∃ w1, exec c (ns ++ [Action.ota p]) w = Outcome.restart w1 ∧
      w1.system_state = sys_state_t.SYS_OTA_RUNNING ∧ w1.hist = w.hist ∧
      w1.calls = w.calls ++ [Call.ota_hal_start,
        Call.esp_https_ota (ota_hal_http_cfg c w (ota_hal_url c p)), Call.esp_restart] := by
  obtain ⟨q1, h1⟩ := noise_then_ota c ns p w q hns (by rw [hs]; decide) hq
  have hA : (url_from_stdin c && p.fgets.isNone) = false := by
    cases h : url_from_stdin c
    · simp
    · have := hstdin h
      cases hg : p.fgets <;> simp_all
  have hB : (c.EXAMPLE_FIRMWARE_UPGRADE_BIND_IF && w.s_netif_sta.isNone) = false := by
    cases h : c.EXAMPLE_FIRMWARE_UPGRADE_BIND_IF
    · simp
    · have := hnet h
      cases hg : w.s_netif_sta <;> simp_all
  rw [h1, Task_ota_running c p { w with gpio_evt_queue := some q1 } hs]
  simp only [ota_hal_start, record, hi, hA, hB, hf, Bool.not_true,
    Bool.false_eq_true, if_false, if_true]
  exact ⟨_, rfl, by simp [ota_hal_http_cfg, hs]⟩

/-- Poll at SYS_OTA_FAILED when gpio_init succeeds. -/
theorem stage_failed_ok (c : Kconfig) (ns : List Action) (p : Platform) (w : World) (q : Queue)
    (hns : ∀ a ∈ ns, a.isNoise = true)
    (hs : w.system_state = sys_state_t.SYS_OTA_FAILED)
    (hq : w.gpio_evt_queue = some q)
    (h1 : p.gpio_install_isr_service = ESP_OK ∨ p.gpio_install_isr_service = ESP_ERR_INVALID_STATE)
    (h2 : p.gpio_isr_handler_add = ESP_OK) :
    ∃ w1, exec c (ns ++ [Action.ota p]) w = Outcome.cont w1 ∧
      w1.system_state = sys_state_t.SYS_RUN ∧
      w1.hist = w.hist ++ [sys_state_t.SYS_RUN] ∧
      w1.calls = w.calls ∧
      w1.gpio_evt_queue = xQueueCreate p.xQueueCreate 10 ∧
      w1.btn_isr_handler = some c.GPIO_BTN_PIN ∧
      w1.btn_conf.intr_type = gpio_int_type_t.GPIO_INTR_POSEDGE := by
  obtain ⟨q1, hn⟩ := noise_then_ota c ns p w q hns (by rw [hs]; decide) hq
  obtain ⟨g1, g2, g3, g4, _, g6, g7, g8, _⟩ :=
    gpio_init_ok c p { w with gpio_evt_queue := some q1 } h1 h2
  rw [hn, Task_ota_failed c p { w with gpio_evt_queue := some q1 } hs]
  simp only [ESP_ERROR_CHECK, g1, if_true]
  exact ⟨_, rfl, by simp [set_system_state, g3, g4, g6, g7, g8]⟩

/-! ## C1, C2: the state sequence of a lifecycle pass -/

/-- C1 (failing pass). Start at SYS_RUN with a URL configured and an edge event
at the head of the queue. Task_per dequeues it with the line read back high;
the orchestrator then polls four times, with any edges and loop bodies of
Task_per and Task_app in between; the fetch of the third poll does not succeed
and gpio_init of the fourth succeeds. Then the run ends back at SYS_RUN and the
values assigned to system_state are exactly SYS_OTA_REQUESTED, SYS_OTA_PREPARE,
SYS_OTA_RUNNING, SYS_OTA_FAILED, SYS_RUN, in this order. -/
theorem C1_failing_pass_state_sequence (c : Kconfig) (w : World) (q : Queue) (io_num : Nat)
    (rest : List Nat) (u : String) (pper p1 p2 p3 p4 : Platform) (n1 n2 n3 n4 : List Action)
    (hrun : w.system_state = sys_state_t.SYS_RUN)
    (hurl : c.ota_cfg.url = some u)
    (hq : w.gpio_evt_queue = some q) (hi : q.items = io_num :: rest)
    (hlevel : pper.gpio_get_level io_num ≠ 0)
    (hfetch : p3.esp_https_ota ≠ ESP_OK)
    (hsvc : p4.gpio_install_isr_service = ESP_OK ∨
      p4.gpio_install_isr_service = ESP_ERR_INVALID_STATE)
    (hadd : p4.gpio_isr_handler_add = ESP_OK)
    (h1 : ∀ a ∈ n1, a.isNoise = true) (h2 : ∀ a ∈ n2, a.isNoise = true)
    (h3 : ∀ a ∈ n3, a.isNoise = true) (h4 : ∀ a ∈ n4, a.isNoise = true) :
    ∃ w1, exec c (Action.per pper :: ((n1 ++ [Action.ota p1]) ++ ((n2 ++ [Action.ota p2]) ++
        ((n3 ++ [Action.ota p3]) ++ (n4 ++ [Action.ota p4]))))) w = Outcome.cont w1 ∧
      w1.system_state = sys_state_t.SYS_RUN ∧
      w.system_state :: w1.hist.drop w.hist.length =
        [sys_state_t.SYS_RUN, sys_state_t.SYS_OTA_REQUESTED, sys_state_t.SYS_OTA_PREPARE,
         sys_state_t.SYS_OTA_RUNNING, sys_state_t.SYS_OTA_FAILED, sys_state_t.SYS_RUN] ∧
      w1.hist = w.hist ++ [sys_state_t.SYS_OTA_REQUESTED, sys_state_t.SYS_OTA_PREPARE,
         sys_state_t.SYS_OTA_RUNNING, sys_state_t.SYS_OTA_FAILED, sys_state_t.SYS_RUN] := by
  have h0 := Task_per_run_head pper w q io_num rest hrun hq hi
  rw [if_pos hlevel] at h0
  obtain ⟨wa, qa, ea, sa, ha, _, qa', _, _⟩ := stage_requested c n1 p1 _ _ u h1
    (show (set_system_state { w with gpio_evt_queue := some { q with items := rest } }
      sys_state_t.SYS_OTA_REQUESTED).system_state = _ from rfl) rfl hurl
  obtain ⟨wb, qb, eb, sb, hb, _, qb', _, _⟩ := stage_prepare c n2 p2 wa qa h2 sa qa'
  obtain ⟨wc, qc, cs, ec, sc, hc, _, qc'⟩ := stage_running_error c n3 p3 wb qb h3 sb qb' hfetch
  obtain ⟨wd, ed, sd, hd, _⟩ := stage_failed_ok c n4 p4 wc qc h4 sc qc' hsvc hadd
  have hh : wd.hist = w.hist ++ [sys_state_t.SYS_OTA_REQUESTED, sys_state_t.SYS_OTA_PREPARE,
      sys_state_t.SYS_OTA_RUNNING, sys_state_t.SYS_OTA_FAILED, sys_state_t.SYS_RUN] := by
    rw [hd, hc, hb, ha]
    simp [set_system_state]
  refine ⟨wd, ?_, sd, ?_, hh⟩
  · rw [exec_cons_cont c _ _ w _ (by simpa [step] using h0), exec_append_cont c _ _ _ _ ea,
      exec_append_cont c _ _ _ _ eb, exec_append_cont c _ _ _ _ ec, ed]
  · rw [hh, hrun]
    simp

/-- C1 at a concrete input: one pending event, an edge and an application tick
interleaved, the fetch failing with ESP_FAIL, the ISR service already installed. -/
theorem C1_failing_pass_state_sequence_witness :
    ∃ w1, exec demo_cfg (Action.per (demo_platform 1 ESP_FAIL ESP_OK) ::
        (([Action.edge true] ++ [Action.ota (demo_platform 1 ESP_FAIL ESP_OK)]) ++
        (([Action.app] ++ [Action.ota (demo_platform 1 ESP_FAIL ESP_OK)]) ++
        (([] ++ [Action.ota (demo_platform 0 ESP_FAIL ESP_OK)]) ++
        ([Action.per (demo_platform 1 ESP_FAIL ESP_OK)] ++
          [Action.ota (demo_platform 0 ESP_OK ESP_ERR_INVALID_STATE)])))))
        (demo_world [4]) = Outcome.cont w1 ∧
      w1.system_state = sys_state_t.SYS_RUN ∧
      (demo_world [4]).system_state :: w1.hist.drop (demo_world [4]).hist.length =
        [sys_state_t.SYS_RUN, sys_state_t.SYS_OTA_REQUESTED, sys_state_t.SYS_OTA_PREPARE,
         sys_state_t.SYS_OTA_RUNNING, sys_state_t.SYS_OTA_FAILED, sys_state_t.SYS_RUN] ∧
      w1.hist = (demo_world [4]).hist ++ [sys_state_t.SYS_OTA_REQUESTED,
         sys_state_t.SYS_OTA_PREPARE, sys_state_t.SYS_OTA_RUNNING, sys_state_t.SYS_OTA_FAILED,
         sys_state_t.SYS_RUN] :=
  C1_failing_pass_state_sequence demo_cfg (demo_world [4]) { items := [4], uxQueueLength := 10 }
    4 [] "https://example.com/fw.bin" (demo_platform 1 ESP_FAIL ESP_OK)
    (demo_platform 1 ESP_FAIL ESP_OK) (demo_platform 1 ESP_FAIL ESP_OK)
    (demo_platform 0 ESP_FAIL ESP_OK) (demo_platform 0 ESP_OK ESP_ERR_INVALID_STATE)
    [Action.edge true] [Action.app] [] [Action.per (demo_platform 1 ESP_FAIL ESP_OK)]
    rfl rfl rfl rfl (by decide) (by decide) (Or.inr rfl) rfl
    (by simp [Action.isNoise]) (by simp [Action.isNoise]) (by simp) (by simp [Action.isNoise])

/-- C2 (successful pass). Start at SYS_RUN with a URL configured and an edge
event at the head of the queue. Task_per dequeues it with the line read back
high; the orchestrator polls three times, with any edges and loop bodies of
Task_per and Task_app in between; the third poll reaches the fetch (a line is
read when the URL comes from stdin, the station interface exists when binding
is built in) and the fetch returns ESP_OK. Then the run ends in a device
restart from SYS_OTA_RUNNING, whatever was scheduled afterwards; the values
taken by system_state are exactly SYS_RUN, SYS_OTA_REQUESTED, SYS_OTA_PREPARE,
SYS_OTA_RUNNING; SYS_OTA_FAILED is never assigned and the last recorded call is
esp_restart. -/
theorem C2_successful_pass_state_sequence (c : Kconfig) (w : World) (q : Queue) (io_num : Nat)
    (rest : List Nat) (u : String) (pper p1 p2 p3 : Platform)
    (n1 n2 n3 later : List Action)
    (hrun : w.system_state = sys_state_t.SYS_RUN)
    (hurl : c.ota_cfg.url = some u)
    (hq : w.gpio_evt_queue = some q) (hi : q.items = io_num :: rest)
    (hlevel : pper.gpio_get_level io_num ≠ 0)
    (hstdin : url_from_stdin c = true → p3.fgets.isSome = true)
    (hnet : c.EXAMPLE_FIRMWARE_UPGRADE_BIND_IF = true → w.s_netif_sta.isSome = true)
    (hfetch : p3.esp_https_ota = ESP_OK)
    (h1 : ∀ a ∈ n1, a.isNoise = true) (h2 : ∀ a ∈ n2, a.isNoise = true)
    (h3 : ∀ a ∈ n3, a.isNoise = true) :
    ∃ w1, exec c (Action.per pper :: ((n1 ++ [Action.ota p1]) ++ ((n2 ++ [Action.ota p2]) ++
        ((n3 ++ [Action.ota p3]) ++ later)))) w = Outcome.restart w1 ∧
      w1.system_state = sys_state_t.SYS_OTA_RUNNING ∧
      w.system_state :: w1.hist.drop w.hist.length =
        [sys_state_t.SYS_RUN, sys_state_t.SYS_OTA_REQUESTED, sys_state_t.SYS_OTA_PREPARE,
         sys_state_t.SYS_OTA_RUNNING] ∧
      sys_state_t.SYS_OTA_FAILED ∉ w1.hist.drop w.hist.length ∧
      w1.calls.getLast? = some Call.esp_restart := by
  have h0 := Task_per_run_head pper w q io_num rest hrun hq hi
  rw [if_pos hlevel] at h0
  obtain ⟨wa, qa, ea, sa, ha, _, qa', ia, na⟩ := stage_requested c n1 p1 _ _ u h1
    (show (set_system_state { w with gpio_evt_queue := some { q with items := rest } }
      sys_state_t.SYS_OTA_REQUESTED).system_state = _ from rfl) rfl hurl
  obtain ⟨wb, qb, eb, sb, hb, _, qb', ib, nb⟩ := stage_prepare c n2 p2 wa qa h2 sa qa'
  have hnet1 : c.EXAMPLE_FIRMWARE_UPGRADE_BIND_IF = true → wb.s_netif_sta.isSome = true := by
    intro h
    rw [nb, na]
    exact hnet h
  obtain ⟨wc, ec, sc, hc, cc⟩ := stage_running_success c n3 p3 wb qb h3 sb qb'
    (by rw [ib, ia]) hstdin hnet1 hfetch
  have hh : wc.hist = w.hist ++ [sys_state_t.SYS_OTA_REQUESTED, sys_state_t.SYS_OTA_PREPARE,
      sys_state_t.SYS_OTA_RUNNING] := by
    rw [hc, hb, ha]
    simp [set_system_state]
  refine ⟨wc, ?_, sc, ?_, ?_, ?_⟩
  · rw [exec_cons_cont c _ _ w _ (by simpa [step] using h0), exec_append_cont c _ _ _ _ ea,
      exec_append_cont c _ _ _ _ eb, exec_append, ec]
  · rw [hh, hrun]
    simp
  · rw [hh]
    simp
  · rw [cc]
    simp

/-- C2 at a concrete input: one pending event, an application tick and an edge
interleaved, the fetch returning ESP_OK, two more polls scheduled after it. -/
theorem C2_successful_pass_state_sequence_witness :
    ∃ w1, exec demo_cfg (Action.per (demo_platform 1 ESP_OK ESP_OK) ::
        (([Action.app] ++ [Action.ota (demo_platform 1 ESP_OK ESP_OK)]) ++
        (([Action.edge true] ++ [Action.ota (demo_platform 1 ESP_OK ESP_OK)]) ++
        (([] ++ [Action.ota (demo_platform 0 ESP_OK ESP_OK)]) ++
        [Action.ota (demo_platform 0 ESP_OK ESP_OK), Action.ota (demo_platform 0 ESP_OK ESP_OK)]))))
        (demo_world [4]) = Outcome.restart w1 ∧
      w1.system_state = sys_state_t.SYS_OTA_RUNNING ∧
      (demo_world [4]).system_state :: w1.hist.drop (demo_world [4]).hist.length =
        [sys_state_t.SYS_RUN, sys_state_t.SYS_OTA_REQUESTED, sys_state_t.SYS_OTA_PREPARE,
         sys_state_t.SYS_OTA_RUNNING] ∧
      sys_state_t.SYS_OTA_FAILED ∉ w1.hist.drop (demo_world [4]).hist.length ∧
      w1.calls.getLast? = some Call.esp_restart :=
  C2_successful_pass_state_sequence demo_cfg (demo_world [4])
    { items := [4], uxQueueLength := 10 } 4 [] "https://example.com/fw.bin"
    (demo_platform 1 ESP_OK ESP_OK) (demo_platform 1 ESP_OK ESP_OK)
    (demo_platform 1 ESP_OK ESP_OK) (demo_platform 0 ESP_OK ESP_OK)
    [Action.app] [Action.edge true] []
    [Action.ota (demo_platform 0 ESP_OK ESP_OK), Action.ota (demo_platform 0 ESP_OK ESP_OK)]
    rfl rfl rfl rfl (by decide) (by decide) (by decide) rfl
    (by simp [Action.isNoise]) (by simp [Action.isNoise]) (by simp)

/-! ## C3: missing fetch target -/

theorem Task_ota_requested_no_url (c : Kconfig) (p : Platform) (w : World)
    (hs : w.system_state = sys_state_t.SYS_OTA_REQUESTED) (hu : c.ota_cfg.url = none) :
    Task_ota c p w = Outcome.abort { w with s_inited := false } := by
  rw [Task_ota_requested c p w hs]
  simp [ota_hal_init, hu, ESP_ERROR_CHECK, ESP_ERR_INVALID_ARG, ESP_OK]

/-- C3 (as amended). With the lifecycle state at SYS_OTA_REQUESTED and no URL
configured, ota_hal_init returns ESP_ERR_INVALID_ARG and the poll of the
orchestrator ends in the fatal-error handler: system_state is still
SYS_OTA_REQUESTED, nothing was assigned to it (neither SYS_OTA_FAILED nor
SYS_RUN), and no call was made (the fetch is not invoked). -/
theorem C3_missing_url_aborts (c : Kconfig) (p : Platform) (w : World)
    (hs : w.system_state = sys_state_t.SYS_OTA_REQUESTED) (hu : c.ota_cfg.url = none) :
    (ota_hal_init c w).1 = ESP_ERR_INVALID_ARG ∧
    Task_ota c p w = Outcome.abort { w with s_inited := false } ∧
    (Task_ota c p w).world.system_state = sys_state_t.SYS_OTA_REQUESTED ∧
    (Task_ota c p w).world.hist = w.hist ∧
    (Task_ota c p w).world.calls = w.calls := by
  have h := Task_ota_requested_no_url c p w hs hu
  refine ⟨by simp [ota_hal_init, hu], h, ?_, ?_, ?_⟩ <;> simp [h, Outcome.world, hs]

/-- C3 at a concrete input: the demo build without URL, a request pending. -/
theorem C3_missing_url_aborts_witness :
    (ota_hal_init no_url_cfg requested_world).1 = ESP_ERR_INVALID_ARG ∧
    Task_ota no_url_cfg (demo_platform 1 ESP_FAIL ESP_OK) requested_world =
      Outcome.abort { requested_world with s_inited := false } ∧
    (Task_ota no_url_cfg (demo_platform 1 ESP_FAIL ESP_OK) requested_world).world.system_state =
      sys_state_t.SYS_OTA_REQUESTED ∧
    (Task_ota no_url_cfg (demo_platform 1 ESP_FAIL ESP_OK) requested_world).world.hist =
      requested_world.hist ∧
    (Task_ota no_url_cfg (demo_platform 1 ESP_FAIL ESP_OK) requested_world).world.calls =
      requested_world.calls :=
  C3_missing_url_aborts no_url_cfg (demo_platform 1 ESP_FAIL ESP_OK) requested_world rfl rfl

/-- C3 as stated fails: in the demo build without URL, polling the orchestrator
from SYS_OTA_REQUESTED (here twice, with recovery calls that would succeed)
ends in the fatal-error handler at the first poll; system_state is still
SYS_OTA_REQUESTED, and neither SYS_OTA_FAILED nor SYS_RUN was ever assigned. -/
theorem C3_missing_url_counterexample :
    no_url_cfg.ota_cfg.url = none ∧
    requested_world.system_state = sys_state_t.SYS_OTA_REQUESTED ∧
    exec no_url_cfg [Action.ota (demo_platform 1 ESP_FAIL ESP_OK),
        Action.ota (demo_platform 1 ESP_FAIL ESP_OK)] requested_world =
      Outcome.abort { requested_world with s_inited := false } ∧
    sys_state_t.SYS_OTA_FAILED ∉ (exec no_url_cfg [Action.ota (demo_platform 1 ESP_FAIL ESP_OK),
        Action.ota (demo_platform 1 ESP_FAIL ESP_OK)] requested_world).world.hist ∧
    (exec no_url_cfg [Action.ota (demo_platform 1 ESP_FAIL ESP_OK),
        Action.ota (demo_platform 1 ESP_FAIL ESP_OK)] requested_world).world.system_state ≠
      sys_state_t.SYS_RUN := by
  have h : exec no_url_cfg [Action.ota (demo_platform 1 ESP_FAIL ESP_OK),
        Action.ota (demo_platform 1 ESP_FAIL ESP_OK)] requested_world =
      Outcome.abort { requested_world with s_inited := false } := by
    simp only [exec, step]
    rw [(Task_ota_requested_no_url no_url_cfg (demo_platform 1 ESP_FAIL ESP_OK) requested_world rfl rfl)]
  refine ⟨rfl, rfl, h, ?_, ?_⟩
  · rw [h]; decide
  · rw [h]; decide

/-! ## C4: the quiescer runs once, before the fetch -/

/-- An edge or a loop body of Task_per or Task_app outside SYS_RUN returns or
aborts without touching the lifecycle state or the call log. -/
theorem noise_step_frame (c : Kconfig) (a : Action) (w : World)
    (ha : a.isNoise = true) (hs : w.system_state ≠ sys_state_t.SYS_RUN) :
    (∃ w1, step c a w = Outcome.cont w1 ∨ step c a w = Outcome.abort w1) ∧
    (step c a w).world.system_state = w.system_state ∧
    (step c a w).world.calls = w.calls ∧ (step c a w).world.hist = w.hist := by
  cases a with
  | edge rising =>
    simp only [step, gpio_edge, gpio_isr_handler]
    split
    · exact ⟨⟨w, Or.inl rfl⟩, rfl, rfl, rfl⟩
    · split
      · split
        · exact ⟨⟨w, Or.inr rfl⟩, rfl, rfl, rfl⟩
        · exact ⟨⟨_, Or.inl rfl⟩, rfl, rfl, rfl⟩
      · exact ⟨⟨w, Or.inl rfl⟩, rfl, rfl, rfl⟩
  | per p =>
    simp only [step, Task_per, hs, if_false]
    exact ⟨⟨w, Or.inl rfl⟩, rfl, rfl, rfl⟩
  | app =>
    simp only [step, Task_app, hs, if_false]
    exact ⟨⟨w, Or.inl rfl⟩, rfl, rfl, rfl⟩
  | ota p => simp [Action.isNoise] at ha

/-- Every way ota_hal_start can end: an error code other than ESP_OK with its
own entry recorded, possibly followed by the fetch, or a restart after the
fetch. -/
theorem ota_hal_start_cases (c : Kconfig) (p : Platform) (w : World) :
    (∃ err t, err ≠ ESP_OK ∧ (t = [] ∨ ∃ cfg, t = [Call.esp_https_ota cfg]) ∧
      ota_hal_start c p w =
        StartResult.returned err { w with calls := w.calls ++ Call.ota_hal_start :: t }) ∨
    (∃ cfg, ota_hal_start c p w = StartResult.restarted
      { w with calls := w.calls ++ [Call.ota_hal_start, Call.esp_https_ota cfg,
        Call.esp_restart] }) := by
  unfold ota_hal_start
  simp only [record]
  split_ifs with h1 h2 h3 h4
  · exact Or.inl ⟨ESP_ERR_INVALID_STATE, [], by decide, Or.inl rfl, rfl⟩
  · exact Or.inl ⟨ESP_FAIL, [], by decide, Or.inl rfl, rfl⟩
  · exact Or.inl ⟨ESP_ERR_INVALID_STATE, [], by decide, Or.inl rfl, rfl⟩
  · exact Or.inr ⟨ota_hal_http_cfg c (record w Call.ota_hal_start) (ota_hal_url c p),
      by simp [record]⟩
  · exact Or.inl ⟨p.esp_https_ota,
      [Call.esp_https_ota (ota_hal_http_cfg c (record w Call.ota_hal_start) (ota_hal_url c p))],
      h4, Or.inr ⟨_, rfl⟩, by simp [record]⟩

theorem peripherals_safe_outputs_frame (c : Kconfig) (w : World) :
    (peripherals_safe_outputs c w).calls = w.calls ++ [Call.peripherals_safe_outputs] ∧
    (peripherals_safe_outputs c w).system_state = w.system_state ∧
    (peripherals_safe_outputs c w).hist = w.hist ∧
    (peripherals_safe_outputs c w).gpio_evt_queue = w.gpio_evt_queue ∧
    (peripherals_safe_outputs c w).btn_isr_handler = none ∧
    (peripherals_safe_outputs c w).btn_conf.intr_type = gpio_int_type_t.GPIO_INTR_DISABLE := by
  unfold peripherals_safe_outputs gpio_set_level
  split_ifs <;> simp [record, gpio_set_intr_type, gpio_isr_handler_remove]

theorem gpio_init_frame (c : Kconfig) (p : Platform) (w : World) :
    (gpio_init c p w).2.calls = w.calls ∧ (gpio_init c p w).2.system_state = w.system_state ∧
    (gpio_init c p w).2.hist = w.hist ∧
    (gpio_init c p w).2.gpio_evt_queue = xQueueCreate p.xQueueCreate 10 := by
  unfold gpio_init
  simp only [gpio_set_intr_type, xQueueCreate]
  split_ifs <;> simp

/-- One poll of the orchestrator keeps the call discipline of a pass. -/
theorem Task_ota_pass_inv (c : Kconfig) (p : Platform) (w : World) (pre : List Call)
    (hs : w.system_state ≠ sys_state_t.SYS_RUN) (hinv : pass_inv pre w) :
    pass_post pre (Task_ota c p w) := by
  cases hst : w.system_state with
  | SYS_RUN => exact absurd hst hs
  | SYS_OTA_REQUESTED =>
    rw [Task_ota_requested c p w hst]
    simp only [pass_inv, hst] at hinv
    cases hu : c.ota_cfg.url <;>
      simp [ota_hal_init, hu, ESP_ERROR_CHECK, ESP_OK, ESP_ERR_INVALID_ARG, pass_post, pass_inv,
        set_system_state, hst, hinv]
  | SYS_OTA_PREPARE =>
    rw [Task_ota_prepare c p w hst]
    simp only [pass_inv, hst] at hinv
    simp [pass_post, pass_inv, set_system_state, (peripherals_safe_outputs_frame c w).1, hinv]
  | SYS_OTA_RUNNING =>
    rw [Task_ota_running c p w hst]
    simp only [pass_inv, hst] at hinv
    rcases ota_hal_start_cases c p w with ⟨err, t, he, ht, h⟩ | ⟨cfg, h⟩
    · rw [h]
      simp only [ne_eq, he, not_false_eq_true, if_true, pass_post, pass_inv, set_system_state]
      refine ⟨t, by simp [hinv], ?_⟩
      rcases ht with rfl | ⟨cfg, rfl⟩ <;> rfl
    · rw [h]
      exact ⟨cfg, by simp [hinv]⟩
  | SYS_OTA_FAILED =>
    rw [Task_ota_failed c p w hst]
    simp only [pass_inv, hst] at hinv
    obtain ⟨g1, g2, _, _⟩ := gpio_init_frame c p w
    unfold ESP_ERROR_CHECK
    split_ifs
    · simpa [pass_post, pass_inv, set_system_state, g1] using hinv
    · simpa [pass_post, pass_inv, g1, g2, hst] using hinv

/-- The call discipline holds at the end of every schedule of one pass. -/
theorem exec_pass_inv (c : Kconfig) (sched : List Action) (w : World) (pre : List Call)
    (hinv : pass_inv pre w) : pass_post pre (exec_pass c sched w) := by
  induction sched generalizing w with
  | nil => exact hinv
  | cons a rest ih =>
    unfold exec_pass
    by_cases hs : w.system_state = sys_state_t.SYS_RUN
    · simpa [hs, pass_post] using hinv
    · rw [if_neg hs]
      have key : pass_post pre (step c a w) := by
        cases hk : a.isNoise with
        | true =>
          obtain ⟨⟨w1, hw⟩, f1, f2, _⟩ := noise_step_frame c a w hk hs
          have hinv1 : pass_inv pre (step c a w).world := by
            unfold pass_inv
            rw [f1, f2]
            exact hinv
          rcases hw with hw | hw <;> rw [hw] at hinv1 ⊢ <;> exact hinv1
        | false =>
          cases a with
          | ota p => exact Task_ota_pass_inv c p w pre hs hinv
          | edge r => simp [Action.isNoise] at hk
          | per p => simp [Action.isNoise] at hk
          | app => simp [Action.isNoise] at hk
      cases hstep : step c a w with
      | cont w1 =>
        rw [hstep] at key
        exact ih w1 key
      | restart w1 =>
        rw [hstep] at key
        exact key
      | abort w1 =>
        rw [hstep] at key
        exact key

/-- The calls of a pass, read off the invariant: nothing, the quiescer alone,
or quiescer, ota_hal_start and what the latter recorded. -/
theorem pass_inv_shape (pre : List Call) (w : World) (h : pass_inv pre w) :
    w.calls = pre ∨ w.calls = pre ++ [Call.peripherals_safe_outputs] ∨
    ∃ t, w.calls = pre ++ Call.peripherals_safe_outputs :: Call.ota_hal_start :: t ∧
      is_fetch_tail t = true := by
  unfold pass_inv at h
  cases hs : w.system_state <;> rw [hs] at h <;> simp only at h
  · exact Or.inr (Or.inr h)
  · exact Or.inl h
  · exact Or.inl h
  · exact Or.inr (Or.inl h)
  · exact Or.inr (Or.inr h)

theorem is_fetch_tail_counts (t : List Call) (h : is_fetch_tail t = true) :
    t.count Call.peripherals_safe_outputs = 0 ∧ t.count Call.ota_hal_start = 0 ∧
    (t.filter fun x => match x with | Call.esp_https_ota _ => true | _ => false).length ≤ 1 := by
  match t, h with
  | [], _ => simp
  | [Call.esp_https_ota _], _ => simp
  | [Call.esp_https_ota _, Call.esp_restart], _ => simp

/-- C4 (quiescer ordering). Take any world that has just left SYS_RUN
(system_state is SYS_OTA_REQUESTED) and any schedule of edges and loop bodies
of the three tasks, with any platform results, run for one lifecycle pass.
The calls recorded during the pass are always one of: none; the quiescer
alone; the quiescer, then ota_hal_start, then at most the fetch and the
restart. So ota_hal_start and the fetch never appear without the quiescer
recorded before them. When the pass is complete (restart, or back at
SYS_RUN) the quiescer and ota_hal_start have each been called exactly once,
the quiescer first, and the fetch at most once. -/
theorem C4_quiescer_once_before_fetch (c : Kconfig) (w : World) (sched : List Action)
    (hs : w.system_state = sys_state_t.SYS_OTA_REQUESTED) :
    ((exec_pass c sched w).world.calls.drop w.calls.length = [] ∨
      (exec_pass c sched w).world.calls.drop w.calls.length = [Call.peripherals_safe_outputs] ∨
      ∃ t, (exec_pass c sched w).world.calls.drop w.calls.length =
          Call.peripherals_safe_outputs :: Call.ota_hal_start :: t ∧ is_fetch_tail t = true) ∧
    ((exec_pass c sched w).pass_done = true →
      (∃ t, (exec_pass c sched w).world.calls.drop w.calls.length =
          Call.peripherals_safe_outputs :: Call.ota_hal_start :: t ∧ is_fetch_tail t = true) ∧
      ((exec_pass c sched w).world.calls.drop w.calls.length).count
          Call.peripherals_safe_outputs = 1 ∧
      ((exec_pass c sched w).world.calls.drop w.calls.length).count Call.ota_hal_start = 1 ∧
      (((exec_pass c sched w).world.calls.drop w.calls.length).filter fun x =>
          match x with | Call.esp_https_ota _ => true | _ => false).length ≤ 1) := by
  have h0 : pass_inv w.calls w := by simp [pass_inv, hs]
  have hp := exec_pass_inv c sched w w.calls h0
  have full : ∀ t, is_fetch_tail t = true →
      (Call.peripherals_safe_outputs :: Call.ota_hal_start :: t).count
          Call.peripherals_safe_outputs = 1 ∧
      (Call.peripherals_safe_outputs :: Call.ota_hal_start :: t).count Call.ota_hal_start = 1 ∧
      ((Call.peripherals_safe_outputs :: Call.ota_hal_start :: t).filter fun x =>
          match x with | Call.esp_https_ota _ => true | _ => false).length ≤ 1 := by
    intro t ht
    obtain ⟨a, b, d⟩ := is_fetch_tail_counts t ht
    refine ⟨?_, ?_, ?_⟩
    · simp [List.count_cons, a]
    · simp [List.count_cons, b]
    · simpa using d
  cases ho : exec_pass c sched w with
  | cont w1 =>
    rw [ho] at hp
    simp only [pass_post] at hp
    simp only [Outcome.world, Outcome.pass_done, decide_eq_true_eq]
    refine ⟨?_, ?_⟩
    · rcases pass_inv_shape _ _ hp with h | h | ⟨t, h, ht⟩
      · exact Or.inl (by rw [h]; simp)
      · exact Or.inr (Or.inl (by rw [h]; simp))
      · exact Or.inr (Or.inr ⟨t, by rw [h]; simp, ht⟩)
    · intro hrun
      simp only [pass_inv, hrun] at hp
      obtain ⟨t, h, ht⟩ := hp
      have hd : List.drop w.calls.length w1.calls =
          Call.peripherals_safe_outputs :: Call.ota_hal_start :: t := by rw [h]; simp
      rw [hd]
      exact ⟨⟨t, rfl, ht⟩, full t ht⟩
  | abort w1 =>
    rw [ho] at hp
    simp only [pass_post] at hp
    simp only [Outcome.world, Outcome.pass_done, Bool.false_eq_true, false_implies, and_true]
    rcases pass_inv_shape _ _ hp with h | h | ⟨t, h, ht⟩
    · exact Or.inl (by rw [h]; simp)
    · exact Or.inr (Or.inl (by rw [h]; simp))
    · exact Or.inr (Or.inr ⟨t, by rw [h]; simp, ht⟩)
  | restart w1 =>
    rw [ho] at hp
    simp only [pass_post] at hp
    obtain ⟨cfg, h⟩ := hp
    simp only [Outcome.world, Outcome.pass_done, true_implies]
    have hd : List.drop w.calls.length w1.calls =
        Call.peripherals_safe_outputs :: Call.ota_hal_start ::
          [Call.esp_https_ota cfg, Call.esp_restart] := by rw [h]; simp
    rw [hd]
    exact ⟨Or.inr (Or.inr ⟨_, rfl, rfl⟩), ⟨_, rfl, rfl⟩, full _ rfl⟩

/-- C4 at a concrete input: the failing pass demo_failing_pass run from
requested_world. -/
theorem C4_quiescer_once_before_fetch_witness :
    requested_world.system_state = sys_state_t.SYS_OTA_REQUESTED ∧
    (exec_pass demo_cfg demo_failing_pass requested_world).pass_done = true ∧
    ((exec_pass demo_cfg demo_failing_pass requested_world).world.calls.drop requested_world.calls.length = [] ∨
      (exec_pass demo_cfg demo_failing_pass requested_world).world.calls.drop requested_world.calls.length = [Call.peripherals_safe_outputs] ∨
      ∃ t, (exec_pass demo_cfg demo_failing_pass requested_world).world.calls.drop requested_world.calls.length =
          Call.peripherals_safe_outputs :: Call.ota_hal_start :: t ∧ is_fetch_tail t = true) ∧
    ((exec_pass demo_cfg demo_failing_pass requested_world).pass_done = true →
      (∃ t, (exec_pass demo_cfg demo_failing_pass requested_world).world.calls.drop requested_world.calls.length =
          Call.peripherals_safe_outputs :: Call.ota_hal_start :: t ∧ is_fetch_tail t = true) ∧
      ((exec_pass demo_cfg demo_failing_pass requested_world).world.calls.drop requested_world.calls.length).count
          Call.peripherals_safe_outputs = 1 ∧
      ((exec_pass demo_cfg demo_failing_pass requested_world).world.calls.drop requested_world.calls.length).count Call.ota_hal_start = 1 ∧
      (((exec_pass demo_cfg demo_failing_pass requested_world).world.calls.drop requested_world.calls.length).filter fun x =>
          match x with | Call.esp_https_ota _ => true | _ => false).length ≤ 1) :=
  ⟨rfl, by decide, C4_quiescer_once_before_fetch demo_cfg requested_world demo_failing_pass rfl⟩

/-! ## C5, C6: the request monitor inside and outside SYS_RUN -/

/-- Cycles of Task_per at SYS_RUN that read the line low remove one event each
and change nothing else. -/
theorem Task_per_low_cycles (c : Kconfig) (lows : List Platform) (w : World) (q : Queue)
    (ios tail : List Nat) (hs : w.system_state = sys_state_t.SYS_RUN)
    (hq : w.gpio_evt_queue = some q) (hi : q.items = ios ++ tail)
    (hlen : ios.length = lows.length)
    (hlow : ∀ l ∈ lows, ∀ n ∈ ios, l.gpio_get_level n = 0) :
    exec c (lows.map Action.per) w =
      Outcome.cont { w with gpio_evt_queue := some { q with items := tail } } := by
  induction lows generalizing w q ios with
  | nil =>
    have : ios = [] := List.length_eq_zero.mp hlen
    subst this
    have hq' : q = { q with items := tail } := by
      cases q
      simp_all
    simp only [List.map_nil, exec]
    rw [← hq', ← hq]
  | cons l ls ih =>
    match ios, hlen with
    | io :: ios1, hlen =>
      have h0 := Task_per_run_head l w q io (ios1 ++ tail) hs hq (by simpa using hi)
      have hl : l.gpio_get_level io = 0 :=
        hlow l (List.mem_cons_self l ls) io (List.mem_cons_self io ios1)
      rw [if_neg (by simp [hl])] at h0
      simp only [List.map_cons]
      rw [exec_cons_cont c _ _ w _ (by simpa [step] using h0)]
      exact ih _ { q with items := ios1 ++ tail } ios1 hs rfl rfl (by simpa using hlen)
        (fun l1 h1 n hn => hlow l1 (List.mem_cons_of_mem l h1) n (List.mem_cons_of_mem io hn))

/-- C5 (request monitor in SYS_RUN). Start at SYS_RUN with events at the head
of the queue. Any number of Task_per cycles that read the line low remove one
event each and assign nothing to system_state (zero transitions, state still
SYS_RUN). The next cycle removes the event at the head; when the level read
back is high the state becomes SYS_OTA_REQUESTED, by exactly one assignment,
and when it is low the state stays SYS_RUN with no assignment. With no
preceding cycle this is the statement for a single cycle. -/
theorem C5_request_monitor_in_running (c : Kconfig) (lows : List Platform) (p : Platform)
    (w : World) (q : Queue) (ios : List Nat) (io_num : Nat) (rest : List Nat)
    (hs : w.system_state = sys_state_t.SYS_RUN)
    (hq : w.gpio_evt_queue = some q) (hi : q.items = ios ++ io_num :: rest)
    (hlen : ios.length = lows.length)
    (hlow : ∀ l ∈ lows, ∀ n ∈ ios, l.gpio_get_level n = 0) :
    ∃ w0 w1, exec c (lows.map Action.per) w = Outcome.cont w0 ∧
      w0.system_state = sys_state_t.SYS_RUN ∧ w0.hist = w.hist ∧
      w0.gpio_evt_queue = some { q with items := io_num :: rest } ∧
      Task_per p w0 = Outcome.cont w1 ∧
      w1.gpio_evt_queue = some { q with items := rest } ∧
      (p.gpio_get_level io_num ≠ 0 →
        w1.system_state = sys_state_t.SYS_OTA_REQUESTED ∧
        w1.hist = w.hist ++ [sys_state_t.SYS_OTA_REQUESTED]) ∧
      (p.gpio_get_level io_num = 0 →
        w1.system_state = sys_state_t.SYS_RUN ∧ w1.hist = w.hist) := by
  have h0 := Task_per_low_cycles c lows w q ios (io_num :: rest) hs hq hi hlen hlow
  have h1 := Task_per_run_head p { w with gpio_evt_queue := some { q with items := io_num :: rest } }
    { q with items := io_num :: rest } io_num rest hs rfl rfl
  by_cases hl : p.gpio_get_level io_num = 0
  · rw [if_neg (by simp [hl])] at h1
    exact ⟨_, _, h0, hs, rfl, rfl, h1, rfl, fun h => absurd hl h, fun _ => ⟨hs, rfl⟩⟩
  · rw [if_pos hl] at h1
    exact ⟨_, _, h0, hs, rfl, rfl, h1, rfl, fun _ => ⟨rfl, rfl⟩, fun h => absurd h hl⟩

/-- C5 at a concrete input: three pending events, two cycles reading the line
low and a third cycle reading it high. -/
theorem C5_request_monitor_in_running_witness :
    ∃ w0 w1, exec demo_cfg ([demo_platform 0 ESP_FAIL ESP_OK,
          demo_platform 0 ESP_FAIL ESP_OK].map Action.per) (demo_world [4, 4, 4]) =
        Outcome.cont w0 ∧
      w0.system_state = sys_state_t.SYS_RUN ∧ w0.hist = (demo_world [4, 4, 4]).hist ∧
      w0.gpio_evt_queue = some { items := 4 :: [], uxQueueLength := 10 } ∧
      Task_per (demo_platform 1 ESP_FAIL ESP_OK) w0 = Outcome.cont w1 ∧
      w1.gpio_evt_queue = some { items := [], uxQueueLength := 10 } ∧
      ((demo_platform 1 ESP_FAIL ESP_OK).gpio_get_level 4 ≠ 0 →
        w1.system_state = sys_state_t.SYS_OTA_REQUESTED ∧
        w1.hist = (demo_world [4, 4, 4]).hist ++ [sys_state_t.SYS_OTA_REQUESTED]) ∧
      ((demo_platform 1 ESP_FAIL ESP_OK).gpio_get_level 4 = 0 →
        w1.system_state = sys_state_t.SYS_RUN ∧ w1.hist = (demo_world [4, 4, 4]).hist) :=
  C5_request_monitor_in_running demo_cfg
    [demo_platform 0 ESP_FAIL ESP_OK, demo_platform 0 ESP_FAIL ESP_OK]
    (demo_platform 1 ESP_FAIL ESP_OK) (demo_world [4, 4, 4])
    { items := [4, 4, 4], uxQueueLength := 10 } [4, 4] 4 [] rfl rfl rfl rfl
    (by simp [demo_platform])

/-- Outside SYS_RUN a schedule of edges and loop bodies of Task_per and Task_app
leaves the lifecycle state, its history and the call log as they are. -/
theorem noise_exec_frame (c : Kconfig) (sched : List Action) (w : World)
    (hn : ∀ a ∈ sched, a.isNoise = true) (hs : w.system_state ≠ sys_state_t.SYS_RUN) :
    (exec c sched w).world.system_state = w.system_state ∧
    (exec c sched w).world.hist = w.hist ∧ (exec c sched w).world.calls = w.calls := by
  induction sched generalizing w with
  | nil => exact ⟨rfl, rfl, rfl⟩
  | cons a rest ih =>
    obtain ⟨⟨w1, hw⟩, f1, f2, f3⟩ := noise_step_frame c a w (hn a (List.mem_cons_self a rest)) hs
    rcases hw with hw | hw
    · rw [hw] at f1 f2 f3
      simp only [Outcome.world] at f1 f2 f3
      rw [exec_cons_cont c a rest w w1 hw]
      obtain ⟨g1, g2, g3⟩ := ih w1 (fun b hb => hn b (List.mem_cons_of_mem a hb)) (by rw [f1]; exact hs)
      exact ⟨g1.trans f1, g2.trans f3, g3.trans f2⟩
    · rw [hw] at f1 f2 f3
      simp only [exec, hw]
      exact ⟨f1, f3, f2⟩

/-- C6 (ignored input outside SYS_RUN). In every world whose lifecycle state is
not SYS_RUN, whatever the queue holds: a call of gpio_isr_handler leaves
system_state and its history unchanged; a Task_per cycle returns the world
unchanged, whatever level the line has; and any schedule of edges and loop
bodies of Task_per (and Task_app), of any length, ends with system_state equal
to its initial value and nothing assigned to it. -/
theorem C6_ignored_outside_running (c : Kconfig) (w : World)
    (hs : w.system_state ≠ sys_state_t.SYS_RUN) :
    (∀ arg, (gpio_isr_handler arg w).world.system_state = w.system_state ∧
      (gpio_isr_handler arg w).world.hist = w.hist) ∧
    (∀ p, Task_per p w = Outcome.cont w) ∧
    (∀ sched : List Action, (∀ a ∈ sched, a.isNoise = true) →
      (exec c sched w).world.system_state = w.system_state ∧
      (exec c sched w).world.hist = w.hist) := by
  refine ⟨?_, ?_, ?_⟩
  · intro arg
    unfold gpio_isr_handler
    cases w.gpio_evt_queue <;> exact ⟨rfl, rfl⟩
  · intro p
    simp only [Task_per, hs, if_false]
  · intro sched hn
    obtain ⟨g1, g2, _⟩ := noise_exec_frame c sched w hn hs
    exact ⟨g1, g2⟩

/-- C6 at a concrete input: the demo world with a request pending. -/
theorem C6_ignored_outside_running_witness :
    requested_world.system_state ≠ sys_state_t.SYS_RUN ∧
    (∀ arg, (gpio_isr_handler arg requested_world).world.system_state =
        requested_world.system_state ∧
      (gpio_isr_handler arg requested_world).world.hist = requested_world.hist) ∧
    (∀ p, Task_per p requested_world = Outcome.cont requested_world) ∧
    (∀ sched : List Action, (∀ a ∈ sched, a.isNoise = true) →
      (exec demo_cfg sched requested_world).world.system_state = requested_world.system_state ∧
      (exec demo_cfg sched requested_world).world.hist = requested_world.hist) :=
  ⟨by decide, C6_ignored_outside_running demo_cfg requested_world (by decide)⟩

/-! ## C7: a burst of edges raises one request -/

/-- A queue of length 10 holding k copies of one item. -/
theorem xQueueSendFromISR_replicate (a k : Nat) (hk : k ≤ 10) :
    xQueueSendFromISR { items := List.replicate k a, uxQueueLength := 10 } a =
      { items := List.replicate (min (k + 1) 10) a, uxQueueLength := 10 } := by
  unfold xQueueSendFromISR
  by_cases h : k < 10
  · have : min (k + 1) 10 = k + 1 := by omega
    simp [h, this, List.replicate_succ']
  · have h10 : k = 10 := by omega
    subst h10
    simp

/-- A burst of rising edges on an armed button line: each edge runs the handler,
which returns at once; the queue fills up to its length and the rest is dropped. -/
theorem burst_fills_queue (c : Kconfig) (n k arg : Nat) (w : World) (hk : k ≤ 10)
    (hq : w.gpio_evt_queue = some { items := List.replicate k (arg % 2 ^ 32), uxQueueLength := 10 })
    (hh : w.btn_isr_handler = some arg)
    (hi : w.btn_conf.intr_type = gpio_int_type_t.GPIO_INTR_POSEDGE) :
    exec c (List.replicate n (Action.edge true)) w =
      Outcome.cont { w with
        gpio_evt_queue :=
          some { items := List.replicate (min (k + n) 10) (arg % 2 ^ 32), uxQueueLength := 10 } } := by
  induction n generalizing k w with
  | zero =>
    have : min (k + 0) 10 = k := by omega
    simp only [List.replicate_zero, exec, this]
    rw [← hq]
  | succ m ih =>
    have hstep : step c (Action.edge true) w = Outcome.cont { w with
        gpio_evt_queue :=
          some { items := List.replicate (min (k + 1) 10) (arg % 2 ^ 32), uxQueueLength := 10 } } := by
      simp only [step, gpio_edge, hh, hi, intr_selects, if_true, gpio_isr_handler, hq]
      rw [xQueueSendFromISR_replicate _ k hk]
    rw [List.replicate_succ, exec_cons_cont c _ _ w _ hstep]
    have h2 := ih (min (k + 1) 10) { w with
        gpio_evt_queue :=
          some { items := List.replicate (min (k + 1) 10) (arg % 2 ^ 32), uxQueueLength := 10 } }
      (by omega) rfl hh hi
    have : min (min (k + 1) 10 + m) 10 = min (k + (m + 1)) 10 := by omega
    rw [this] at h2
    exact h2

/-- With the queue empty whenever the state is SYS_RUN, a loop body of a task
assigns no SYS_OTA_REQUESTED and keeps the queue empty whenever the state is
SYS_RUN. -/
theorem task_step_no_request (c : Kconfig) (a : Action) (w : World)
    (ha : ∀ r, a ≠ Action.edge r)
    (hJ : w.system_state = sys_state_t.SYS_RUN → ∀ q, w.gpio_evt_queue = some q → q.items = []) :
    ((step c a w).world.system_state = sys_state_t.SYS_RUN →
        ∀ q, (step c a w).world.gpio_evt_queue = some q → q.items = []) ∧
    (step c a w).world.hist.count sys_state_t.SYS_OTA_REQUESTED =
      w.hist.count sys_state_t.SYS_OTA_REQUESTED := by
  cases a with
  | edge r => exact absurd rfl (ha r)
  | per p =>
    simp only [step, Task_per]
    by_cases hs : w.system_state = sys_state_t.SYS_RUN
    · rw [if_pos hs]
      cases hq : w.gpio_evt_queue with
      | none => simp [Outcome.world, hq]
      | some q =>
        have hi := hJ hs q hq
        simp only [xQueueReceive, hi]
        exact ⟨hJ, rfl⟩
    · rw [if_neg hs]
      exact ⟨hJ, rfl⟩
  | app =>
    simp only [step, Task_app]
    by_cases hs : w.system_state = sys_state_t.SYS_RUN
    · rw [if_pos hs]
      unfold ESP_ERROR_CHECK gpio_toggle gpio_set_level
      split_ifs <;> exact ⟨hJ, rfl⟩
    · rw [if_neg hs]
      exact ⟨hJ, rfl⟩
  | ota p =>
    simp only [step]
    cases hst : w.system_state with
    | SYS_RUN =>
      rw [Task_ota_run c p w hst]
      exact ⟨hJ, rfl⟩
    | SYS_OTA_REQUESTED =>
      rw [Task_ota_requested c p w hst]
      cases hu : c.ota_cfg.url <;>
        simp [ota_hal_init, hu, ESP_ERROR_CHECK, ESP_OK, ESP_ERR_INVALID_ARG, Outcome.world,
          set_system_state, hst, List.count_append]
    | SYS_OTA_PREPARE =>
      rw [Task_ota_prepare c p w hst]
      simp [Outcome.world, set_system_state, (peripherals_safe_outputs_frame c w).2.2.1,
        List.count_append]
    | SYS_OTA_RUNNING =>
      rw [Task_ota_running c p w hst]
      rcases ota_hal_start_cases c p w with ⟨err, t, he, _, h⟩ | ⟨cfg, h⟩
      · rw [h]
        simp [he, Outcome.world, set_system_state, List.count_append]
      · rw [h]
        simp [Outcome.world, hst]
    | SYS_OTA_FAILED =>
      rw [Task_ota_failed c p w hst]
      obtain ⟨_, g2, g3, g4⟩ := gpio_init_frame c p w
      unfold ESP_ERROR_CHECK
      split_ifs
      · refine ⟨fun _ q hq => ?_, by simp [Outcome.world, set_system_state, g3, List.count_append]⟩
        have hq1 : xQueueCreate p.xQueueCreate 10 = some q := by
          rw [← g4]
          simpa [Outcome.world, set_system_state] using hq
        unfold xQueueCreate at hq1
        split_ifs at hq1
        cases hq1
        rfl
      · simp [Outcome.world, g2, g3, hst]

/-- No schedule of task loop bodies raises a request while the queue is empty
whenever the state is SYS_RUN. -/
theorem tasks_exec_no_request (c : Kconfig) (sched : List Action) (w : World)
    (ha : ∀ a ∈ sched, ∀ r, a ≠ Action.edge r)
    (hJ : w.system_state = sys_state_t.SYS_RUN → ∀ q, w.gpio_evt_queue = some q → q.items = []) :
    (exec c sched w).world.hist.count sys_state_t.SYS_OTA_REQUESTED =
      w.hist.count sys_state_t.SYS_OTA_REQUESTED := by
  induction sched generalizing w with
  | nil => rfl
  | cons a rest ih =>
    obtain ⟨j1, j2⟩ := task_step_no_request c a w (ha a (List.mem_cons_self a rest)) hJ
    simp only [exec]
    cases hstep : step c a w with
    | cont w1 =>
      rw [hstep] at j1 j2
      simp only [Outcome.world] at j1 j2
      rw [ih w1 (fun b hb => ha b (List.mem_cons_of_mem a hb)) j1, j2]
    | restart w1 =>
      rw [hstep] at j2
      exact j2
    | abort w1 =>
      rw [hstep] at j2
      exact j2

/-- C7 (burst of edges). Start at SYS_RUN with the button line armed for rising
edges and an empty event queue of length 10. Deliver n rising edges in
immediate succession, n at least 1: every edge runs the handler, which returns
without blocking, and the queue then holds min n 10 events (the others were
dropped). Let Task_per take one event with the line read back high and let any
schedule of loop bodies of the three tasks follow, with any platform results
and no further edge. Over the whole run SYS_OTA_REQUESTED is assigned exactly
once, also when the pass fails and the state returns to SYS_RUN. -/
theorem C7_burst_raises_one_request (c : Kconfig) (w : World) (n arg : Nat) (pper : Platform)
    (sched : List Action) (hn : 1 ≤ n)
    (hs : w.system_state = sys_state_t.SYS_RUN)
    (hq : w.gpio_evt_queue = some { items := [], uxQueueLength := 10 })
    (hh : w.btn_isr_handler = some arg)
    (hi : w.btn_conf.intr_type = gpio_int_type_t.GPIO_INTR_POSEDGE)
    (hlevel : pper.gpio_get_level (arg % 2 ^ 32) ≠ 0)
    (hsched : ∀ a ∈ sched, ∀ r, a ≠ Action.edge r) :
    ∃ wb, exec c (List.replicate n (Action.edge true)) w = Outcome.cont wb ∧
      wb.gpio_evt_queue =
        some { items := List.replicate (min n 10) (arg % 2 ^ 32), uxQueueLength := 10 } ∧
      wb.system_state = sys_state_t.SYS_RUN ∧ wb.hist = w.hist ∧
      (exec c (List.replicate n (Action.edge true) ++ Action.per pper :: sched) w).world.hist.count
          sys_state_t.SYS_OTA_REQUESTED =
        w.hist.count sys_state_t.SYS_OTA_REQUESTED + 1 := by
  have hb := burst_fills_queue c n 0 arg w (by omega) hq hh hi
  rw [Nat.zero_add] at hb
  obtain ⟨m, hm⟩ : ∃ m, min n 10 = m + 1 := ⟨min n 10 - 1, by omega⟩
  refine ⟨_, hb, rfl, hs, rfl, ?_⟩
  rw [exec_append_cont c _ _ w _ hb]
  have hp := Task_per_run_head pper
    { w with
      gpio_evt_queue :=
        some { items := List.replicate (min n 10) (arg % 2 ^ 32), uxQueueLength := 10 } }
    { items := List.replicate (min n 10) (arg % 2 ^ 32), uxQueueLength := 10 }
    (arg % 2 ^ 32) (List.replicate m (arg % 2 ^ 32)) hs rfl
    (by simp only [hm, List.replicate_succ])
  rw [if_pos hlevel] at hp
  rw [exec_cons_cont c _ _ _ _ (by simpa [step] using hp)]
  rw [tasks_exec_no_request c sched _ hsched (by intro h; simp [set_system_state] at h)]
  simp [set_system_state, List.count_append]

/-- C7 at the scenario of the specification: 15 rising edges on the armed demo
world, then demo_aftermath, which holds a failing pass and further cycles. -/
theorem C7_burst_raises_one_request_witness :
    ∃ wb, exec demo_cfg (List.replicate 15 (Action.edge true)) (demo_world []) =
        Outcome.cont wb ∧
      wb.gpio_evt_queue = some { items := List.replicate (min 15 10) (4 % 2 ^ 32),
                                 uxQueueLength := 10 } ∧
      wb.system_state = sys_state_t.SYS_RUN ∧ wb.hist = (demo_world []).hist ∧
      (exec demo_cfg (List.replicate 15 (Action.edge true) ++
          Action.per (demo_platform 1 ESP_FAIL ESP_OK) :: demo_aftermath)
          (demo_world [])).world.hist.count sys_state_t.SYS_OTA_REQUESTED =
        (demo_world []).hist.count sys_state_t.SYS_OTA_REQUESTED + 1 :=
  C7_burst_raises_one_request demo_cfg (demo_world []) 15 4 (demo_platform 1 ESP_FAIL ESP_OK)
    demo_aftermath (by decide) rfl rfl rfl rfl (by decide) (by simp [demo_aftermath])

/-! ## C8: recovery re-arms the request path -/

/-- Recovery when the queue is allocated. With the lifecycle state at
SYS_OTA_FAILED, xQueueCreate returning a queue and gpio_init returning ESP_OK
(the ISR service may report ESP_ERR_INVALID_STATE because it is already
installed), the poll of the orchestrator returns at SYS_RUN with the edge
handler registered on the button line, the interrupt type of the line set to
rising edge (so no longer disabled), and a fresh empty event queue of length
10 in place. A rising edge delivered next runs the handler, and the Task_per
cycle that reads the line back high then assigns SYS_OTA_REQUESTED. -/
theorem recovery_rearms_when_queue_allocated (c : Kconfig) (p pper : Platform) (w : World)
    (hs : w.system_state = sys_state_t.SYS_OTA_FAILED)
    (halloc : p.xQueueCreate = true)
    (hok : (gpio_init c p w).1 = ESP_OK)
    (hlevel : pper.gpio_get_level (c.GPIO_BTN_PIN % 2 ^ 32) ≠ 0) :
    ∃ w1 w2, Task_ota c p w = Outcome.cont w1 ∧
      w1.system_state = sys_state_t.SYS_RUN ∧
      w1.btn_isr_handler = some c.GPIO_BTN_PIN ∧
      w1.btn_conf.intr_type = gpio_int_type_t.GPIO_INTR_POSEDGE ∧
      w1.btn_conf.intr_type ≠ gpio_int_type_t.GPIO_INTR_DISABLE ∧
      w1.gpio_evt_queue = some { items := [], uxQueueLength := 10 } ∧
      gpio_edge true w1 = Outcome.cont { w1 with
        gpio_evt_queue := some { items := [c.GPIO_BTN_PIN % 2 ^ 32], uxQueueLength := 10 } } ∧
      exec c [Action.edge true, Action.per pper] w1 = Outcome.cont w2 ∧
      w2.system_state = sys_state_t.SYS_OTA_REQUESTED ∧
      w2.hist = w.hist ++ [sys_state_t.SYS_RUN, sys_state_t.SYS_OTA_REQUESTED] := by
  obtain ⟨h1, h2⟩ := (gpio_init_ok_iff c p w).mp hok
  obtain ⟨g1, g2, g3, g4, _, g6, g7, g8, _⟩ := gpio_init_ok c p w h1 h2
  rw [halloc] at g6
  simp only [xQueueCreate, if_true] at g6
  have e1 : Task_ota c p w =
      Outcome.cont (set_system_state (gpio_init c p w).2 sys_state_t.SYS_RUN) := by
    rw [Task_ota_failed c p w hs]
    simp only [ESP_ERROR_CHECK, g1, if_true]
  obtain ⟨w1, hw1, s1, hh1, hi1, hq1, hhist1⟩ : ∃ w1, Task_ota c p w = Outcome.cont w1 ∧
      w1.system_state = sys_state_t.SYS_RUN ∧ w1.btn_isr_handler = some c.GPIO_BTN_PIN ∧
      w1.btn_conf.intr_type = gpio_int_type_t.GPIO_INTR_POSEDGE ∧
      w1.gpio_evt_queue = some { items := [], uxQueueLength := 10 } ∧
      w1.hist = w.hist ++ [sys_state_t.SYS_RUN] :=
    ⟨_, e1, rfl, by simpa [set_system_state] using g7, by simpa [set_system_state] using g8,
      by simpa [set_system_state] using g6, by simp [set_system_state, g3]⟩
  have hedge : gpio_edge true w1 = Outcome.cont { w1 with
      gpio_evt_queue := some { items := [c.GPIO_BTN_PIN % 2 ^ 32], uxQueueLength := 10 } } := by
    simp [gpio_edge, gpio_isr_handler, hh1, hi1, hq1, intr_selects, xQueueSendFromISR]
  have hper := Task_per_run_head pper
    { w1 with
      gpio_evt_queue := some { items := [c.GPIO_BTN_PIN % 2 ^ 32], uxQueueLength := 10 } }
    { items := [c.GPIO_BTN_PIN % 2 ^ 32], uxQueueLength := 10 } (c.GPIO_BTN_PIN % 2 ^ 32) []
    s1 rfl rfl
  rw [if_pos hlevel] at hper
  obtain ⟨w2, hw2, s2, hhist2⟩ : ∃ w2, Task_per pper { w1 with
        gpio_evt_queue := some { items := [c.GPIO_BTN_PIN % 2 ^ 32], uxQueueLength := 10 } } =
        Outcome.cont w2 ∧ w2.system_state = sys_state_t.SYS_OTA_REQUESTED ∧
      w2.hist = w1.hist ++ [sys_state_t.SYS_OTA_REQUESTED] := ⟨_, hper, rfl, rfl⟩
  have hrun : exec c [Action.edge true, Action.per pper] w1 = Outcome.cont w2 := by
    rw [exec_cons_cont c _ _ w1 _ (show step c (Action.edge true) w1 = _ from hedge),
      exec_singleton]
    exact hw2
  exact ⟨w1, w2, hw1, s1, hh1, hi1, by rw [hi1]; decide, hq1, hedge, hrun, s2,
    by rw [hhist2, hhist1]; simp⟩

/-- Recovery with the queue allocated, at a concrete input: the quiesced demo
world after a failed fetch (no handler on the button line, its interrupt
disabled), the ISR service reporting that it is already installed. -/
theorem recovery_rearms_when_queue_allocated_demo :
    failed_world.btn_isr_handler = none ∧
    failed_world.btn_conf.intr_type = gpio_int_type_t.GPIO_INTR_DISABLE ∧
    (demo_platform 1 ESP_FAIL ESP_ERR_INVALID_STATE).gpio_install_isr_service =
      ESP_ERR_INVALID_STATE ∧
    ∃ w1 w2, Task_ota demo_cfg (demo_platform 1 ESP_FAIL ESP_ERR_INVALID_STATE) failed_world =
        Outcome.cont w1 ∧
      w1.system_state = sys_state_t.SYS_RUN ∧
      w1.btn_isr_handler = some demo_cfg.GPIO_BTN_PIN ∧
      w1.btn_conf.intr_type = gpio_int_type_t.GPIO_INTR_POSEDGE ∧
      w1.btn_conf.intr_type ≠ gpio_int_type_t.GPIO_INTR_DISABLE ∧
      w1.gpio_evt_queue = some { items := [], uxQueueLength := 10 } ∧
      gpio_edge true w1 = Outcome.cont { w1 with
        gpio_evt_queue :=
          some { items := [demo_cfg.GPIO_BTN_PIN % 2 ^ 32], uxQueueLength := 10 } } ∧
      exec demo_cfg [Action.edge true, Action.per (demo_platform 1 ESP_FAIL ESP_OK)] w1 =
        Outcome.cont w2 ∧
      w2.system_state = sys_state_t.SYS_OTA_REQUESTED ∧
      w2.hist = failed_world.hist ++ [sys_state_t.SYS_RUN, sys_state_t.SYS_OTA_REQUESTED] :=
  ⟨by decide, by decide, rfl,
    recovery_rearms_when_queue_allocated demo_cfg
      (demo_platform 1 ESP_FAIL ESP_ERR_INVALID_STATE) (demo_platform 1 ESP_FAIL ESP_OK)
      failed_world (by decide) rfl (by decide) (by decide)⟩

/-- C8 (recovery re-arms the request path) at the input where it fails: the
demo world after a failed fetch is polled at SYS_OTA_FAILED while xQueueCreate
finds no memory, the ISR service reports that it is already installed and the
handler is registered. gpio_init returns ESP_OK and the poll returns at
SYS_RUN with the handler on the button line and the trigger at rising edge,
but gpio_evt_queue is NULL. The next rising edge runs the handler, whose send
to the NULL handle ends in the fatal-error handler: the state is still SYS_RUN
and SYS_OTA_REQUESTED was not assigned. -/
theorem C8_recovery_without_queue :
    failed_world.system_state = sys_state_t.SYS_OTA_FAILED ∧
    heap_exhausted.xQueueCreate = false ∧
    (gpio_init demo_cfg heap_exhausted failed_world).1 = ESP_OK ∧
    Task_ota demo_cfg heap_exhausted failed_world = Outcome.cont recovered_without_queue ∧
    recovered_without_queue.system_state = sys_state_t.SYS_RUN ∧
    recovered_without_queue.btn_isr_handler = some demo_cfg.GPIO_BTN_PIN ∧
    recovered_without_queue.btn_conf.intr_type = gpio_int_type_t.GPIO_INTR_POSEDGE ∧
    recovered_without_queue.gpio_evt_queue = none ∧
    gpio_edge true recovered_without_queue = Outcome.abort recovered_without_queue ∧
    exec demo_cfg [Action.edge true, Action.per (demo_platform 1 ESP_FAIL ESP_OK)]
        recovered_without_queue = Outcome.abort recovered_without_queue ∧
    Task_per (demo_platform 1 ESP_FAIL ESP_OK) recovered_without_queue =
      Outcome.abort recovered_without_queue ∧
    sys_state_t.SYS_OTA_REQUESTED ∉ recovered_without_queue.hist.drop failed_world.hist.length := by
  refine ⟨?_, ?_, ?_, ?_, ?_, ?_, ?_, ?_, ?_, ?_, ?_, ?_⟩ <;> decide

/-! ## C9: boot validator -/

/-- C9 (boot validator). With a running partition present and both
validation-mark calls succeeding, ota_hal_mark_app_valid_if_needed returns
ESP_OK; when the mark was pending-verify it makes exactly one
confirm-and-cancel-rollback call and the mark then reads valid (confirmed);
for every other mark, in particular valid and undefined, it makes no call and
leaves the world, mark included, as it was. Calling it a second time changes
nothing: the mark and the recorded calls are those left by the first call. -/
theorem C9_boot_validator (p : Platform) (w : World) (part : Nat)
    (hpart : w.running_partition = some part)
    (hget : p.esp_ota_get_state_partition = ESP_OK)
    (hmark : p.esp_ota_mark_app_valid_cancel_rollback = ESP_OK) :
    (ota_hal_mark_app_valid_if_needed p w).1 = ESP_OK ∧
    (w.ota_state = esp_ota_img_states_t.ESP_OTA_IMG_PENDING_VERIFY →
      (ota_hal_mark_app_valid_if_needed p w).2.ota_state =
        esp_ota_img_states_t.ESP_OTA_IMG_VALID ∧
      (ota_hal_mark_app_valid_if_needed p w).2.calls =
        w.calls ++ [Call.esp_ota_mark_app_valid_cancel_rollback]) ∧
    (w.ota_state ≠ esp_ota_img_states_t.ESP_OTA_IMG_PENDING_VERIFY →
      (ota_hal_mark_app_valid_if_needed p w).2 = w) ∧
    (ota_hal_mark_app_valid_if_needed p (ota_hal_mark_app_valid_if_needed p w).2).2 =
      (ota_hal_mark_app_valid_if_needed p w).2 := by
  by_cases hpv : w.ota_state = esp_ota_img_states_t.ESP_OTA_IMG_PENDING_VERIFY
  · have h1 : ota_hal_mark_app_valid_if_needed p w =
        (ESP_OK, { record w Call.esp_ota_mark_app_valid_cancel_rollback with
          ota_state := esp_ota_img_states_t.ESP_OTA_IMG_VALID }) := by
      simp [ota_hal_mark_app_valid_if_needed, hpart, esp_ota_get_state_partition, hget, hpv,
        esp_ota_mark_app_valid_cancel_rollback, hmark]
    have h2 : ota_hal_mark_app_valid_if_needed p
        { record w Call.esp_ota_mark_app_valid_cancel_rollback with
          ota_state := esp_ota_img_states_t.ESP_OTA_IMG_VALID } =
        (ESP_OK, { record w Call.esp_ota_mark_app_valid_cancel_rollback with
          ota_state := esp_ota_img_states_t.ESP_OTA_IMG_VALID }) := by
      simp [ota_hal_mark_app_valid_if_needed, record, hpart, esp_ota_get_state_partition, hget]
    rw [h1]
    refine ⟨rfl, fun _ => ⟨rfl, rfl⟩, fun h => absurd hpv h, ?_⟩
    rw [h2]
  · have h1 : ota_hal_mark_app_valid_if_needed p w = (ESP_OK, w) := by
      simp [ota_hal_mark_app_valid_if_needed, hpart, esp_ota_get_state_partition, hget, hpv]
    rw [h1]
    refine ⟨rfl, fun h => absurd h hpv, fun _ => rfl, ?_⟩
    rw [h1]

/-- C9 at a concrete input: the demo world at boot with the running image
pending verification. -/
theorem C9_boot_validator_witness :
    (ota_hal_mark_app_valid_if_needed (demo_platform 0 ESP_FAIL ESP_OK) pending_world).1 =
      ESP_OK ∧
    (pending_world.ota_state = esp_ota_img_states_t.ESP_OTA_IMG_PENDING_VERIFY →
      (ota_hal_mark_app_valid_if_needed (demo_platform 0 ESP_FAIL ESP_OK) pending_world).2.ota_state =
        esp_ota_img_states_t.ESP_OTA_IMG_VALID ∧
      (ota_hal_mark_app_valid_if_needed (demo_platform 0 ESP_FAIL ESP_OK) pending_world).2.calls =
        pending_world.calls ++ [Call.esp_ota_mark_app_valid_cancel_rollback]) ∧
    (pending_world.ota_state ≠ esp_ota_img_states_t.ESP_OTA_IMG_PENDING_VERIFY →
      (ota_hal_mark_app_valid_if_needed (demo_platform 0 ESP_FAIL ESP_OK) pending_world).2 =
        pending_world) ∧
    (ota_hal_mark_app_valid_if_needed (demo_platform 0 ESP_FAIL ESP_OK)
        (ota_hal_mark_app_valid_if_needed (demo_platform 0 ESP_FAIL ESP_OK) pending_world).2).2 =
      (ota_hal_mark_app_valid_if_needed (demo_platform 0 ESP_FAIL ESP_OK) pending_world).2 :=
  C9_boot_validator (demo_platform 0 ESP_FAIL ESP_OK) pending_world 0 rfl rfl rfl

/-! ## C10: trigger polarity -/

/-- C10 (as amended). When the configured trigger polarity is rising, the
interrupt type that gpio_init leaves active on the button line is the
configured one. For every configuration, a Task_per cycle at SYS_RUN that
dequeues an edge event ends at SYS_OTA_REQUESTED exactly when the level read
back is high (a rising edge); with rising configured this is exactly when the
classified direction matches the configured polarity. -/
theorem C10_rising_polarity_honoured (c : Kconfig) (p pper : Platform) (w0 w : World)
    (q : Queue) (io_num : Nat) (rest : List Nat)
    (hs : w.system_state = sys_state_t.SYS_RUN)
    (hq : w.gpio_evt_queue = some q) (hi : q.items = io_num :: rest) :
    (configured_intr_type c = gpio_int_type_t.GPIO_INTR_POSEDGE →
      (gpio_init c p w0).2.btn_conf.intr_type = configured_intr_type c) ∧
    ((Task_per pper w).world.system_state = sys_state_t.SYS_OTA_REQUESTED ↔
      pper.gpio_get_level io_num ≠ 0) ∧
    (configured_intr_type c = gpio_int_type_t.GPIO_INTR_POSEDGE →
      ((Task_per pper w).world.system_state = sys_state_t.SYS_OTA_REQUESTED ↔
        intr_selects (configured_intr_type c) (pper.gpio_get_level io_num != 0) = true)) := by
  have hty : (gpio_init c p w0).2.btn_conf.intr_type = gpio_int_type_t.GPIO_INTR_POSEDGE := by
    unfold gpio_init
    simp only [gpio_set_intr_type, xQueueCreate]
    split_ifs <;> rfl
  have hreq : (Task_per pper w).world.system_state = sys_state_t.SYS_OTA_REQUESTED ↔
      pper.gpio_get_level io_num ≠ 0 := by
    rw [Task_per_run_head pper w q io_num rest hs hq hi]
    by_cases hl : pper.gpio_get_level io_num = 0
    · simp [hl, Outcome.world, hs]
    · simp [hl, Outcome.world, set_system_state]
  refine ⟨fun hc => by rw [hty, hc], hreq, fun hc => ?_⟩
  rw [hreq, hc]
  simp [intr_selects]

/-- C10 at a concrete input: the demo build (rising edge configured), one event
pending, the line read back high. -/
theorem C10_rising_polarity_honoured_witness :
    (configured_intr_type demo_cfg = gpio_int_type_t.GPIO_INTR_POSEDGE →
      (gpio_init demo_cfg (demo_platform 1 ESP_FAIL ESP_OK) failed_world).2.btn_conf.intr_type =
        configured_intr_type demo_cfg) ∧
    ((Task_per (demo_platform 1 ESP_FAIL ESP_OK) (demo_world [4])).world.system_state =
        sys_state_t.SYS_OTA_REQUESTED ↔
      (demo_platform 1 ESP_FAIL ESP_OK).gpio_get_level 4 ≠ 0) ∧
    (configured_intr_type demo_cfg = gpio_int_type_t.GPIO_INTR_POSEDGE →
      ((Task_per (demo_platform 1 ESP_FAIL ESP_OK) (demo_world [4])).world.system_state =
          sys_state_t.SYS_OTA_REQUESTED ↔
        intr_selects (configured_intr_type demo_cfg)
          ((demo_platform 1 ESP_FAIL ESP_OK).gpio_get_level 4 != 0) = true)) :=
  C10_rising_polarity_honoured demo_cfg (demo_platform 1 ESP_FAIL ESP_OK)
    (demo_platform 1 ESP_FAIL ESP_OK) failed_world (demo_world [4])
    { items := [4], uxQueueLength := 10 } 4 [] rfl rfl rfl

/-- C10 as stated fails: with falling edge configured, gpio_init succeeds and
leaves the button line triggering on rising edges, not on the configured
falling edge; a dequeued event whose level reads low (falling, the configured
polarity) leaves the state at SYS_RUN, and one whose level reads high (rising,
not the configured polarity) moves it to SYS_OTA_REQUESTED. -/
theorem C10_configured_polarity_counterexample :
    configured_intr_type negedge_cfg = gpio_int_type_t.GPIO_INTR_NEGEDGE ∧
    (gpio_init negedge_cfg (demo_platform 0 ESP_FAIL ESP_OK) (demo_world [])).1 = ESP_OK ∧
    (gpio_init negedge_cfg (demo_platform 0 ESP_FAIL ESP_OK) (demo_world [])).2.btn_conf.intr_type =
      gpio_int_type_t.GPIO_INTR_POSEDGE ∧
    (gpio_init negedge_cfg (demo_platform 0 ESP_FAIL ESP_OK) (demo_world [])).2.btn_conf.intr_type ≠
      configured_intr_type negedge_cfg ∧
    negedge_world.system_state = sys_state_t.SYS_RUN ∧
    intr_selects (configured_intr_type negedge_cfg)
      ((demo_platform 0 ESP_FAIL ESP_OK).gpio_get_level 4 != 0) = true ∧
    (Task_per (demo_platform 0 ESP_FAIL ESP_OK) negedge_world).world.system_state =
      sys_state_t.SYS_RUN ∧
    intr_selects (configured_intr_type negedge_cfg)
      ((demo_platform 1 ESP_FAIL ESP_OK).gpio_get_level 4 != 0) = false ∧
    (Task_per (demo_platform 1 ESP_FAIL ESP_OK) negedge_world).world.system_state =
      sys_state_t.SYS_OTA_REQUESTED := by
  refine ⟨?_, ?_, ?_, ?_, ?_, ?_, ?_, ?_, ?_⟩ <;> decide

/-! ## C11: edge events outside SYS_RUN -/

/-- Sending from the ISR keeps the queue length fixed at creation, never removes
an item and never exceeds the length. -/
theorem xQueueSendFromISR_bounds (q : Queue) (x : Nat) :
    (xQueueSendFromISR q x).uxQueueLength = q.uxQueueLength ∧
    q.items.length ≤ (xQueueSendFromISR q x).items.length ∧
    (q.items.length ≤ q.uxQueueLength →
      (xQueueSendFromISR q x).items.length ≤ q.uxQueueLength) := by
  unfold xQueueSendFromISR
  split_ifs with h
  · refine ⟨rfl, by simp, fun _ => ?_⟩
    simp only [List.length_append, List.length_singleton]
    omega
  · exact ⟨rfl, le_refl _, fun hb => hb⟩

/-- Outside SYS_RUN an edge or a loop body of Task_per or Task_app removes
nothing from the event queue and does not fill it beyond its length. -/
theorem noise_step_queue (c : Kconfig) (a : Action) (w : World) (q : Queue)
    (ha : a.isNoise = true) (hs : w.system_state ≠ sys_state_t.SYS_RUN)
    (hq : w.gpio_evt_queue = some q) (hb : q.items.length ≤ q.uxQueueLength) :
    ∃ q1, step c a w = Outcome.cont { w with gpio_evt_queue := some q1 } ∧
      q1.uxQueueLength = q.uxQueueLength ∧ q.items.length ≤ q1.items.length ∧
      q1.items.length ≤ q1.uxQueueLength := by
  have same : Outcome.cont w = Outcome.cont { w with gpio_evt_queue := some q } := by
    rw [← hq]
  cases a with
  | edge rising =>
    simp only [step, gpio_edge]
    split
    · exact ⟨q, same, rfl, le_refl _, hb⟩
    · rename_i arg _
      split
      · obtain ⟨b1, b2, b3⟩ := xQueueSendFromISR_bounds q (arg % 2 ^ 32)
        exact ⟨xQueueSendFromISR q (arg % 2 ^ 32), by simp [gpio_isr_handler, hq], b1, b2,
          by rw [b1]; exact b3 hb⟩
      · exact ⟨q, same, rfl, le_refl _, hb⟩
  | per p =>
    refine ⟨q, ?_, rfl, le_refl _, hb⟩
    simp only [step, Task_per, hs, if_false]
    exact same
  | app =>
    refine ⟨q, ?_, rfl, le_refl _, hb⟩
    simp only [step, Task_app, hs, if_false]
    exact same
  | ota p => simp [Action.isNoise] at ha

theorem noise_exec_queue (c : Kconfig) (sched : List Action) (w : World) (q : Queue)
    (hn : ∀ a ∈ sched, a.isNoise = true) (hs : w.system_state ≠ sys_state_t.SYS_RUN)
    (hq : w.gpio_evt_queue = some q) (hb : q.items.length ≤ q.uxQueueLength) :
    ∃ q1, exec c sched w = Outcome.cont { w with gpio_evt_queue := some q1 } ∧
      q1.uxQueueLength = q.uxQueueLength ∧ q.items.length ≤ q1.items.length ∧
      q1.items.length ≤ q1.uxQueueLength := by
  induction sched generalizing w q with
  | nil => exact ⟨q, by rw [← hq]; rfl, rfl, le_refl _, hb⟩
  | cons a rest ih =>
    obtain ⟨q1, e1, l1, m1, b1⟩ :=
      noise_step_queue c a w q (hn a (List.mem_cons_self a rest)) hs hq hb
    obtain ⟨q2, e2, l2, m2, b2⟩ := ih { w with gpio_evt_queue := some q1 } q1
      (fun x hx => hn x (List.mem_cons_of_mem a hx)) hs rfl b1
    exact ⟨q2, by simp only [exec, e1, e2], l2.trans l1, m1.trans m2, b2⟩

/-- Cycles of Task_per outside SYS_RUN return the world as it is. -/
theorem Task_per_idle_cycles (c : Kconfig) (ps : List Platform) (w : World)
    (hs : w.system_state ≠ sys_state_t.SYS_RUN) :
    exec c (ps.map Action.per) w = Outcome.cont w := by
  induction ps with
  | nil => rfl
  | cons p rest ih =>
    have h : step c (Action.per p) w = Outcome.cont w := by
      simp only [step, Task_per, hs, if_false]
    rw [List.map_cons, exec_cons_cont c _ _ w w h, ih]

/-- C11 (as amended). A Task_per cycle entered with the lifecycle state other
than SYS_RUN returns the world unchanged: nothing is removed from the event
queue and the lifecycle state stays as it is, for one cycle and for any number
of cycles. Over any schedule made of edges and loop bodies of Task_per and
Task_app only (no poll of the orchestrator), started outside SYS_RUN, the
queue never loses an event and never holds more than the length fixed at its
creation, because a send from the ISR to a full queue drops the event. -/
theorem C11_events_outside_running_stay_queued (c : Kconfig) (w : World) (q : Queue)
    (hs : w.system_state ≠ sys_state_t.SYS_RUN)
    (hq : w.gpio_evt_queue = some q) (hb : q.items.length ≤ q.uxQueueLength) :
    (∀ p, Task_per p w = Outcome.cont w) ∧
    (∀ ps : List Platform, exec c (ps.map Action.per) w = Outcome.cont w) ∧
    (∀ sched : List Action, (∀ a ∈ sched, a.isNoise = true) →
      ∃ q1, exec c sched w = Outcome.cont { w with gpio_evt_queue := some q1 } ∧
        q1.uxQueueLength = q.uxQueueLength ∧ q.items.length ≤ q1.items.length ∧
        q1.items.length ≤ q1.uxQueueLength) := by
  refine ⟨fun p => ?_, fun ps => Task_per_idle_cycles c ps w hs,
    fun sched hn => noise_exec_queue c sched w q hn hs hq hb⟩
  simp only [Task_per, hs, if_false]

/-- C11 at a concrete input: a request pending and two events still queued. -/
theorem C11_events_outside_running_stay_queued_witness :
    (∀ p, Task_per p backlog_world = Outcome.cont backlog_world) ∧
    (∀ ps : List Platform, exec demo_cfg (ps.map Action.per) backlog_world =
      Outcome.cont backlog_world) ∧
    (∀ sched : List Action, (∀ a ∈ sched, a.isNoise = true) →
      ∃ q1, exec demo_cfg sched backlog_world =
          Outcome.cont { backlog_world with gpio_evt_queue := some q1 } ∧
        q1.uxQueueLength = 10 ∧ [4, 4].length ≤ q1.items.length ∧
        q1.items.length ≤ q1.uxQueueLength) :=
  C11_events_outside_running_stay_queued demo_cfg backlog_world
    { items := [4, 4], uxQueueLength := 10 } (by decide) rfl (by decide)

/-- C11 as stated fails: with a request pending (state SYS_OTA_REQUESTED) and two
events in the queue, a Task_per cycle, and three cycles in a row, leave both
events in the queue; nothing is consumed. -/
theorem C11_events_consumed_counterexample :
    backlog_world.system_state ≠ sys_state_t.SYS_RUN ∧
    backlog_world.gpio_evt_queue = some { items := [4, 4], uxQueueLength := 10 } ∧
    (Task_per (demo_platform 1 ESP_FAIL ESP_OK) backlog_world).world.gpio_evt_queue =
      some { items := [4, 4], uxQueueLength := 10 } ∧
    (exec demo_cfg [Action.per (demo_platform 1 ESP_FAIL ESP_OK),
        Action.per (demo_platform 0 ESP_FAIL ESP_OK),
        Action.per (demo_platform 1 ESP_FAIL ESP_OK)] backlog_world).world.gpio_evt_queue =
      some { items := [4, 4], uxQueueLength := 10 } := by
  refine ⟨?_, ?_, ?_, ?_⟩ <;> decide

/-! ## C12: the transition table of the orchestrator -/

/-- What one poll of the orchestrator does to the lifecycle state: either
nothing is assigned, or the successor state is assigned, once; and a poll that
returns from a state other than SYS_RUN has assigned the successor. -/
theorem Task_ota_state_step (c : Kconfig) (p : Platform) (w : World) :
    (((Task_ota c p w).world.system_state = w.system_state ∧
        (Task_ota c p w).world.hist = w.hist) ∨
      ((Task_ota c p w).world.system_state = w.system_state.next ∧
        (Task_ota c p w).world.hist = w.hist ++ [w.system_state.next])) ∧
    (∀ w1, Task_ota c p w = Outcome.cont w1 → w.system_state ≠ sys_state_t.SYS_RUN →
      w1.system_state = w.system_state.next) := by
  cases hst : w.system_state with
  | SYS_RUN =>
    rw [Task_ota_run c p w hst]
    exact ⟨Or.inl ⟨hst, rfl⟩, fun _ _ h => absurd rfl h⟩
  | SYS_OTA_REQUESTED =>
    rw [Task_ota_requested c p w hst]
    cases hu : c.ota_cfg.url <;>
      simp [ota_hal_init, hu, ESP_ERROR_CHECK, ESP_OK, ESP_ERR_INVALID_ARG, Outcome.world,
        set_system_state, sys_state_t.next, hst]
  | SYS_OTA_PREPARE =>
    rw [Task_ota_prepare c p w hst]
    obtain ⟨_, _, f3, _⟩ := peripherals_safe_outputs_frame c w
    refine ⟨Or.inr ⟨rfl, ?_⟩, fun w1 h _ => ?_⟩
    · simp [Outcome.world, set_system_state, f3, sys_state_t.next]
    · cases h
      rfl
  | SYS_OTA_RUNNING =>
    rw [Task_ota_running c p w hst]
    rcases ota_hal_start_cases c p w with ⟨err, t, he, _, h⟩ | ⟨cfg, h⟩
    · rw [h]
      simp only [ne_eq, he, not_false_eq_true, if_true]
      refine ⟨Or.inr ⟨rfl, rfl⟩, fun w1 h1 _ => ?_⟩
      cases h1
      rfl
    · rw [h]
      exact ⟨Or.inl ⟨hst, rfl⟩, fun w1 h1 _ => by cases h1⟩
  | SYS_OTA_FAILED =>
    rw [Task_ota_failed c p w hst]
    obtain ⟨_, g2, g3, _⟩ := gpio_init_frame c p w
    unfold ESP_ERROR_CHECK
    split_ifs
    · refine ⟨Or.inr ⟨rfl, ?_⟩, fun w1 h1 _ => ?_⟩
      · simp [Outcome.world, set_system_state, g3, sys_state_t.next]
      · cases h1
        rfl
    · exact ⟨Or.inl ⟨by simp [Outcome.world, g2, hst], by simp [Outcome.world, g3]⟩,
        fun w1 h1 _ => by cases h1⟩

/-- Every error code returned by ota_hal_start differs from ESP_OK. -/
theorem ota_hal_start_returns_error (c : Kconfig) (p : Platform) (w w1 : World)
    (err : esp_err_t) (h : ota_hal_start c p w = StartResult.returned err w1) :
    err ≠ ESP_OK := by
  rcases ota_hal_start_cases c p w with ⟨e, t, he, _, h2⟩ | ⟨cfg, h2⟩
  · rw [h2] at h
    cases h
    exact he
  · rw [h2] at h
    cases h

/-- C12 (orchestrator transition table). For every lifecycle state s and every
platform result, one poll of Task_ota ends with the lifecycle state at s, with
nothing assigned, or at the successor of s, assigned once; so the only changes
are SYS_OTA_REQUESTED to SYS_OTA_PREPARE, SYS_OTA_PREPARE to SYS_OTA_RUNNING,
SYS_OTA_RUNNING to SYS_OTA_FAILED and SYS_OTA_FAILED to SYS_RUN. At SYS_RUN the
poll returns the world unchanged. A poll that returns (no abort, no restart)
from a state other than SYS_RUN has moved to the successor. The change from
SYS_OTA_RUNNING to SYS_OTA_FAILED is made only when ota_hal_start returned an
error code. Every change other than SYS_OTA_FAILED to SYS_RUN raises the value
of the state in sys_state_t by exactly one. -/
theorem C12_orchestrator_transition_table (c : Kconfig) (p : Platform) (w : World) :
    (((Task_ota c p w).world.system_state = w.system_state ∧
        (Task_ota c p w).world.hist = w.hist) ∨
      ((Task_ota c p w).world.system_state = w.system_state.next ∧
        (Task_ota c p w).world.hist = w.hist ++ [w.system_state.next])) ∧
    (w.system_state = sys_state_t.SYS_RUN → Task_ota c p w = Outcome.cont w) ∧
    (∀ w1, Task_ota c p w = Outcome.cont w1 → w.system_state ≠ sys_state_t.SYS_RUN →
      w1.system_state = w.system_state.next) ∧
    (w.system_state = sys_state_t.SYS_OTA_RUNNING →
      (Task_ota c p w).world.system_state = sys_state_t.SYS_OTA_FAILED →
      ∃ err w1, ota_hal_start c p w = StartResult.returned err w1 ∧ err ≠ ESP_OK) ∧
    ((Task_ota c p w).world.system_state ≠ w.system_state →
      w.system_state ≠ sys_state_t.SYS_OTA_FAILED →
      (Task_ota c p w).world.system_state.toNat = w.system_state.toNat + 1) ∧
    ((Task_ota c p w).world.system_state ≠ w.system_state →
      w.system_state = sys_state_t.SYS_OTA_FAILED →
      (Task_ota c p w).world.system_state = sys_state_t.SYS_RUN) := by
  obtain ⟨hstep, hcont⟩ := Task_ota_state_step c p w
  refine ⟨hstep, Task_ota_run c p w, hcont, ?_, ?_, ?_⟩
  · intro hs hf
    rw [Task_ota_running c p w hs] at hf
    cases hr : ota_hal_start c p w with
    | returned err w1 => exact ⟨err, w1, rfl, ota_hal_start_returns_error c p w w1 err hr⟩
    | restarted w1 =>
      rcases ota_hal_start_cases c p w with ⟨e, t, _, _, h2⟩ | ⟨cfg, h2⟩
      · rw [h2] at hr
        cases hr
      · rw [h2] at hf
        simp [Outcome.world, hs] at hf
  · intro hne hnf
    rcases hstep with ⟨h1, _⟩ | ⟨h1, _⟩
    · exact absurd h1 hne
    · rw [h1]
      cases hs : w.system_state <;> simp_all [sys_state_t.next, sys_state_t.toNat]
  · intro hne hf
    rcases hstep with ⟨h1, _⟩ | ⟨h1, _⟩
    · exact absurd h1 hne
    · rw [h1, hf]
      rfl

/-- C12 at a concrete input: the poll at SYS_OTA_REQUESTED in the demo build. -/
theorem C12_orchestrator_transition_table_witness :
    (((Task_ota demo_cfg (demo_platform 1 ESP_FAIL ESP_OK) requested_world).world.system_state =
          requested_world.system_state ∧
        (Task_ota demo_cfg (demo_platform 1 ESP_FAIL ESP_OK) requested_world).world.hist =
          requested_world.hist) ∨
      ((Task_ota demo_cfg (demo_platform 1 ESP_FAIL ESP_OK) requested_world).world.system_state =
          requested_world.system_state.next ∧
        (Task_ota demo_cfg (demo_platform 1 ESP_FAIL ESP_OK) requested_world).world.hist =
          requested_world.hist ++ [requested_world.system_state.next])) ∧
    (Task_ota demo_cfg (demo_platform 1 ESP_FAIL ESP_OK) requested_world).world.system_state =
      sys_state_t.SYS_OTA_PREPARE ∧
    (Task_ota demo_cfg (demo_platform 1 ESP_FAIL ESP_OK) requested_world).world.system_state.toNat =
      requested_world.system_state.toNat + 1 :=
  ⟨(C12_orchestrator_transition_table demo_cfg (demo_platform 1 ESP_FAIL ESP_OK)
      requested_world).1, by decide,
    (C12_orchestrator_transition_table demo_cfg (demo_platform 1 ESP_FAIL ESP_OK)
      requested_world).2.2.2.2.1 (by decide) (by decide)⟩

/-! ## C13: a failed restoration is fatal -/

/-- C13 (restoration failure is fatal). gpio_init returns an error exactly when
gpio_install_isr_service fails with a code other than ESP_ERR_INVALID_STATE or
gpio_isr_handler_add fails. With the lifecycle state at SYS_OTA_FAILED and
gpio_init returning an error, the poll of Task_ota ends in the fatal-error
handler: system_state is still SYS_OTA_FAILED, nothing was assigned to it (in
particular not SYS_RUN), and whatever is scheduled after the poll does not run. -/
theorem C13_restoration_failure_is_fatal (c : Kconfig) (p : Platform) (w : World)
    (later : List Action)
    (hs : w.system_state = sys_state_t.SYS_OTA_FAILED)
    (herr : (gpio_init c p w).1 ≠ ESP_OK) :
    ((gpio_init c p w).1 ≠ ESP_OK ↔
      (p.gpio_install_isr_service ≠ ESP_OK ∧ p.gpio_install_isr_service ≠ ESP_ERR_INVALID_STATE)
        ∨ p.gpio_isr_handler_add ≠ ESP_OK) ∧
    Task_ota c p w = Outcome.abort (gpio_init c p w).2 ∧
    (Task_ota c p w).world.system_state = sys_state_t.SYS_OTA_FAILED ∧
    (Task_ota c p w).world.hist = w.hist ∧
    exec c (Action.ota p :: later) w = Outcome.abort (gpio_init c p w).2 := by
  have h : Task_ota c p w = Outcome.abort (gpio_init c p w).2 := by
    rw [Task_ota_failed c p w hs]
    simp only [ESP_ERROR_CHECK, herr, if_false]
  obtain ⟨_, g2, g3, _⟩ := gpio_init_frame c p w
  refine ⟨?_, h, ?_, ?_, ?_⟩
  · rw [Ne, gpio_init_ok_iff]
    tauto
  · rw [h]
    simp only [Outcome.world, g2, hs]
  · rw [h]
    simp only [Outcome.world, g3]
  · simp only [exec, step, h]

/-- C13 at a concrete input: the demo world after a failed fetch, the
registration of the button handler failing with ESP_FAIL, two more polls
scheduled afterwards. -/
theorem C13_restoration_failure_is_fatal_witness :
    ((gpio_init demo_cfg handler_add_fails failed_world).1 ≠ ESP_OK ↔
      (handler_add_fails.gpio_install_isr_service ≠ ESP_OK ∧
        handler_add_fails.gpio_install_isr_service ≠ ESP_ERR_INVALID_STATE)
        ∨ handler_add_fails.gpio_isr_handler_add ≠ ESP_OK) ∧
    Task_ota demo_cfg handler_add_fails failed_world =
      Outcome.abort (gpio_init demo_cfg handler_add_fails failed_world).2 ∧
    (Task_ota demo_cfg handler_add_fails failed_world).world.system_state =
      sys_state_t.SYS_OTA_FAILED ∧
    (Task_ota demo_cfg handler_add_fails failed_world).world.hist = failed_world.hist ∧
    exec demo_cfg (Action.ota handler_add_fails ::
        [Action.ota (demo_platform 1 ESP_FAIL ESP_OK),
         Action.per (demo_platform 1 ESP_FAIL ESP_OK)]) failed_world =
      Outcome.abort (gpio_init demo_cfg handler_add_fails failed_world).2 :=
  C13_restoration_failure_is_fatal demo_cfg handler_add_fails failed_world
    [Action.ota (demo_platform 1 ESP_FAIL ESP_OK), Action.per (demo_platform 1 ESP_FAIL ESP_OK)]
    (by decide) (by decide)

/-! ## C14: quiesced while fetching -/

/-- What gpio_init leaves alone besides the logs. -/
theorem gpio_init_keeps (c : Kconfig) (p : Platform) (w : World) :
    (gpio_init c p w).2.out_level = w.out_level ∧ (gpio_init c p w).2.s_inited = w.s_inited := by
  unfold gpio_init
  simp only [gpio_set_intr_type, xQueueCreate]
  split_ifs <;> exact ⟨rfl, rfl⟩

theorem wifi_init_connection_keeps (b : BootPlatform) (w : World) :
    (wifi_init_connection b w).2.system_state = w.system_state ∧
    (wifi_init_connection b w).2.out_level = w.out_level := by
  unfold wifi_init_connection
  split_ifs <;> exact ⟨rfl, rfl⟩

theorem ota_hal_mark_app_valid_if_needed_keeps (p : Platform) (w : World) :
    (ota_hal_mark_app_valid_if_needed p w).2.system_state = w.system_state ∧
    (ota_hal_mark_app_valid_if_needed p w).2.out_level = w.out_level := by
  unfold ota_hal_mark_app_valid_if_needed esp_ota_mark_app_valid_cancel_rollback
  cases w.running_partition with
  | none => exact ⟨rfl, rfl⟩
  | some part =>
    simp only [record]
    split_ifs <;> exact ⟨rfl, rfl⟩

/-- Booting assigns nothing to system_state and drives no output level. -/
theorem app_main_keeps (c : Kconfig) (b : BootPlatform) (p : Platform) (w : World) :
    (app_main c b p w).world.system_state = w.system_state ∧
    (app_main c b p w).world.out_level = w.out_level := by
  obtain ⟨_, g2, _, _⟩ := gpio_init_frame c p w
  obtain ⟨g5, _⟩ := gpio_init_keeps c p w
  obtain ⟨i1, i2⟩ := wifi_init_connection_keeps b (gpio_init c p w).2
  obtain ⟨m1, m2⟩ := ota_hal_mark_app_valid_if_needed_keeps p
    (wifi_init_connection b (gpio_init c p w).2).2
  unfold app_main ESP_ERROR_CHECK
  simp only
  split_ifs <;> try exact ⟨rfl, rfl⟩
  all_goals
    first
    | exact ⟨g2, g5⟩
    | exact ⟨i1.trans g2, i2.trans g5⟩
    | (split <;> try split_ifs) <;>
        first
        | exact ⟨i1.trans g2, i2.trans g5⟩
        | exact ⟨m1.trans (i1.trans g2), m2.trans (i2.trans g5)⟩

/-- Outside SYS_RUN the loop body of Task_app returns the world as it is. -/
theorem Task_app_idle (c : Kconfig) (w : World) (hs : w.system_state ≠ sys_state_t.SYS_RUN) :
    Task_app c w = Outcome.cont w := by
  simp only [Task_app, hs, if_false]

/-- The quiescer leaves the output at level 0 when it was there before or the
pin can be driven. -/
theorem peripherals_safe_outputs_level (c : Kconfig) (w : World)
    (h : GPIO_IS_VALID_OUTPUT_GPIO c c.GPIO_OUT_PIN = false → w.out_level = 0) :
    (peripherals_safe_outputs c w).out_level = 0 ∧
    (peripherals_safe_outputs c w).s_inited = w.s_inited := by
  unfold peripherals_safe_outputs gpio_set_level
  cases hv : GPIO_IS_VALID_OUTPUT_GPIO c c.GPIO_OUT_PIN
  · simp [record, gpio_set_intr_type, gpio_isr_handler_remove, h hv]
  · simp [record, gpio_set_intr_type, gpio_isr_handler_remove]

/-- Every step keeps quiesced_inv. -/
theorem step_quiesced_inv (c : Kconfig) (a : Action) (w : World) (h : quiesced_inv c w) :
    quiesced_inv c (step c a w).world := by
  obtain ⟨h1, h2, h3⟩ := h
  cases a with
  | edge rising =>
    simp only [step, gpio_edge, gpio_isr_handler]
    split
    · exact ⟨h1, h2, h3⟩
    · split
      · split <;> exact ⟨h1, h2, h3⟩
      · exact ⟨h1, h2, h3⟩
  | per p =>
    show quiesced_inv c (Task_per p w).world
    by_cases hs : w.system_state = sys_state_t.SYS_RUN
    · have hr : ¬ w.system_state = sys_state_t.SYS_OTA_RUNNING := by rw [hs]; decide
      have hp : ¬ w.system_state = sys_state_t.SYS_OTA_PREPARE := by rw [hs]; decide
      cases hq : w.gpio_evt_queue with
      | none =>
        simp only [Task_per, hs, if_true, hq]
        exact ⟨h1, h2, h3⟩
      | some q =>
        cases hi : q.items with
        | nil =>
          simp only [Task_per, hs, if_true, hq, xQueueReceive, hi]
          exact ⟨h1, h2, h3⟩
        | cons io_num rest =>
          rw [Task_per_run_head p w q io_num rest hs hq hi]
          split_ifs
          · exact ⟨fun x => by simp [Outcome.world, set_system_state] at x,
              fun x => by simp [Outcome.world, set_system_state] at x, h3⟩
          · exact ⟨fun x => absurd x hr, fun x => absurd x hp, h3⟩
    · simp only [Task_per, hs, if_false]
      exact ⟨h1, h2, h3⟩
  | app =>
    simp only [step, Task_app]
    by_cases hs : w.system_state = sys_state_t.SYS_RUN
    · rw [if_pos hs]
      have hr : ¬ w.system_state = sys_state_t.SYS_OTA_RUNNING := by rw [hs]; decide
      have hp : ¬ w.system_state = sys_state_t.SYS_OTA_PREPARE := by rw [hs]; decide
      unfold ESP_ERROR_CHECK gpio_toggle gpio_set_level
      cases hv : GPIO_IS_VALID_OUTPUT_GPIO c c.GPIO_OUT_PIN
      · simp only [Bool.false_eq_true, if_false, ESP_ERR_INVALID_ARG, ESP_OK]
        exact ⟨h1, h2, h3⟩
      · simp only [if_true, ESP_OK]
        exact ⟨fun x => absurd x hr, fun x => absurd x hp, fun x => by simp [hv] at x⟩
    · rw [if_neg hs]
      exact ⟨h1, h2, h3⟩
  | ota p =>
    simp only [step]
    cases hst : w.system_state with
    | SYS_RUN =>
      rw [Task_ota_run c p w hst]
      exact ⟨h1, h2, h3⟩
    | SYS_OTA_REQUESTED =>
      rw [Task_ota_requested c p w hst]
      cases hu : c.ota_cfg.url with
      | none =>
        simp only [ota_hal_init, hu, ESP_ERROR_CHECK, ESP_ERR_INVALID_ARG, ESP_OK]
        exact ⟨fun x => by simp [Outcome.world, hst] at x,
          fun x => by simp [Outcome.world, hst] at x, h3⟩
      | some u =>
        simp only [ota_hal_init, hu, ESP_ERROR_CHECK, if_true]
        exact ⟨fun x => by simp [Outcome.world, set_system_state] at x, fun _ => rfl, h3⟩
    | SYS_OTA_PREPARE =>
      rw [Task_ota_prepare c p w hst]
      obtain ⟨_, _, _, _, f5, f6⟩ := peripherals_safe_outputs_frame c w
      obtain ⟨l1, l2⟩ := peripherals_safe_outputs_level c w h3
      exact ⟨fun _ => ⟨l1, f5, f6, l2.trans (h2 hst)⟩,
        fun x => by simp [Outcome.world, set_system_state] at x, fun _ => l1⟩
    | SYS_OTA_RUNNING =>
      rw [Task_ota_running c p w hst]
      rcases ota_hal_start_cases c p w with ⟨err, t, he, _, h⟩ | ⟨cfg, h⟩
      · rw [h]
        simp only [ne_eq, he, not_false_eq_true, if_true]
        exact ⟨fun x => by simp [Outcome.world, set_system_state] at x,
          fun x => by simp [Outcome.world, set_system_state] at x, h3⟩
      · rw [h]
        exact ⟨fun _ => h1 hst, fun x => by simp [Outcome.world, hst] at x, h3⟩
    | SYS_OTA_FAILED =>
      rw [Task_ota_failed c p w hst]
      obtain ⟨_, g2, _, _⟩ := gpio_init_frame c p w
      obtain ⟨k1, _⟩ := gpio_init_keeps c p w
      unfold ESP_ERROR_CHECK
      split_ifs
      · exact ⟨fun x => by simp [Outcome.world, set_system_state] at x,
          fun x => by simp [Outcome.world, set_system_state] at x,
          fun x => k1.trans (h3 x)⟩
      · exact ⟨fun x => by simp [Outcome.world, g2, hst] at x,
          fun x => by simp [Outcome.world, g2, hst] at x, fun x => k1.trans (h3 x)⟩

/-- Every schedule keeps quiesced_inv, up to and including the world in which
the run ends. -/
theorem exec_quiesced_inv (c : Kconfig) (sched : List Action) (w : World)
    (h : quiesced_inv c w) : quiesced_inv c (exec c sched w).world := by
  induction sched generalizing w with
  | nil => exact h
  | cons a rest ih =>
    have hs := step_quiesced_inv c a w h
    simp only [exec]
    cases hstep : step c a w with
    | cont w1 =>
      rw [hstep] at hs
      exact ih w1 hs
    | restart w1 =>
      rw [hstep] at hs
      exact hs
    | abort w1 =>
      rw [hstep] at hs
      exact hs

/-- C14 (quiesced while fetching). Let app_main return from power-on, with any
boot-time platform results, and let any schedule of edges and loop bodies of
Task_per, Task_app and Task_ota follow, with any platform results. In the
world so reached, also when the run ended in a restart or in the fatal-error
handler: if the lifecycle state is SYS_OTA_RUNNING then the output is at level
0, no handler is registered on the button line, the interrupt type of the
button line is disabled and s_inited is true, so that ota_hal_start does not
return from its not-initialised branch there. And in every world whose
lifecycle state is not SYS_RUN the loop body of Task_app returns the world
unchanged, output level included. -/
theorem C14_quiesced_while_fetching (c : Kconfig) (b : BootPlatform) (p : Platform)
    (part : Option Nat) (mark : esp_ota_img_states_t) (w0 : World) (sched : List Action)
    (hboot : app_main c b p (power_on part mark) = Outcome.cont w0) :
    ((exec c sched w0).world.system_state = sys_state_t.SYS_OTA_RUNNING →
      (exec c sched w0).world.out_level = 0 ∧
      (exec c sched w0).world.btn_isr_handler = none ∧
      (exec c sched w0).world.btn_conf.intr_type = gpio_int_type_t.GPIO_INTR_DISABLE ∧
      (exec c sched w0).world.s_inited = true) ∧
    (∀ w : World, w.system_state ≠ sys_state_t.SYS_RUN →
      Task_app c w = Outcome.cont w ∧ (Task_app c w).world.out_level = w.out_level) := by
  have hk := app_main_keeps c b p (power_on part mark)
  rw [hboot] at hk
  simp only [Outcome.world, power_on] at hk
  have h0 : quiesced_inv c w0 :=
    ⟨fun x => (by rw [hk.1] at x; cases x), fun x => (by rw [hk.1] at x; cases x),
      fun _ => hk.2⟩
  exact ⟨(exec_quiesced_inv c sched w0 h0).1,
    fun w hs => ⟨Task_app_idle c w hs, by rw [Task_app_idle c w hs]; rfl⟩⟩

/-- C14 at a concrete input: the demo device booted, then a schedule that takes
it into the fetch, with the output toggled to level 1 on the way. -/
theorem C14_quiesced_while_fetching_witness :
    (exec demo_cfg demo_to_fetching demo_booted).world.system_state =
      sys_state_t.SYS_OTA_RUNNING ∧
    (exec demo_cfg [Action.app] demo_booted).world.out_level = 1 ∧
    ((exec demo_cfg demo_to_fetching demo_booted).world.system_state =
        sys_state_t.SYS_OTA_RUNNING →
      (exec demo_cfg demo_to_fetching demo_booted).world.out_level = 0 ∧
      (exec demo_cfg demo_to_fetching demo_booted).world.btn_isr_handler = none ∧
      (exec demo_cfg demo_to_fetching demo_booted).world.btn_conf.intr_type =
        gpio_int_type_t.GPIO_INTR_DISABLE ∧
      (exec demo_cfg demo_to_fetching demo_booted).world.s_inited = true) ∧
    (∀ w : World, w.system_state ≠ sys_state_t.SYS_RUN →
      Task_app demo_cfg w = Outcome.cont w ∧
      (Task_app demo_cfg w).world.out_level = w.out_level) :=
  ⟨by decide, by decide,
    C14_quiesced_while_fetching demo_cfg demo_boot (demo_platform 0 ESP_FAIL ESP_OK) (some 0)
      esp_ota_img_states_t.ESP_OTA_IMG_PENDING_VERIFY demo_booted demo_to_fetching (by decide)⟩

end OtaDemo
